import Mathlib

/-!
Verification of the grammar-bot core (normalizer, grading engine, exercise
selector, due-item scheduler, remediation trigger) against its
natural-language specification.

Texts are modelled as `List Char`.  The embedding of the Python code is
faithful on the Basic Latin (ASCII) range extended with the four curly
quote characters: on that domain Unicode NFKC normalization is the
identity, `unicodedata.category(c).startswith("L")` coincides with
`Char.isAlpha`, and `str.casefold` coincides with `Char.toLower`.
-/

namespace GrammarBot

/-- Whitespace characters matched by Python's `\s` (and stripped by
`str.strip`) on the ASCII range: space, tab, newline, carriage return,
vertical tab, form feed. -/
def isSpaceCh (c : Char) : Bool :=
  c = ' ' || c = '\t' || c = '\n' || c = '\r' || c.toNat = 11 || c.toNat = 12

/-- The quote-unification map `_QUOTE_MAP` from `normalize.py`: curly
single quotes become an apostrophe (code 39), curly double quotes become
a straight double quote (code 34). -/
def quoteFix (c : Char) : Char :=
  if c = Char.ofNat 0x2019 then Char.ofNat 39
  else if c = Char.ofNat 0x2018 then Char.ofNat 39
  else if c = Char.ofNat 0x201C then Char.ofNat 34
  else if c = Char.ofNat 0x201D then Char.ofNat 34
  else c

/-- `_nfkc_normalize` from `normalize.py`, restricted to the embedding's
character domain (NFKC is the identity on ASCII, so only the quote map
remains). -/
def nfkcNormalize (s : List Char) : List Char :=
  s.map quoteFix

/-- Model of the letter test `unicodedata.category(ch).startswith("L")`
used by `_letters_only`; on ASCII this is exactly `Char.isAlpha`. -/
def isLetterCh (c : Char) : Bool :=
  c.isAlpha

/-- Python `str.strip()`: drop leading and trailing whitespace. -/
def stripChars (s : List Char) : List Char :=
  ((s.dropWhile isSpaceCh).reverse.dropWhile isSpaceCh).reverse

/-- Worker for `collapseWs`; the flag records whether the previous
character belonged to a whitespace run (in which case further whitespace
is absorbed into the single space already emitted). -/
def collapseAux : Bool → List Char → List Char
  | _, [] => []
  | prevSpace, c :: rest =>
    if isSpaceCh c then
      if prevSpace then collapseAux true rest else ' ' :: collapseAux true rest
    else c :: collapseAux false rest

/-- Python `re.sub(r"\s+", " ", s)`: replace every maximal run of
whitespace by a single space. -/
def collapseWs (l : List Char) : List Char :=
  collapseAux false l

/-- The sentence-ending punctuation set `".!?,"` used by
`norm_answer_text`'s trailing-trim loop. -/
def isTrailPunct (c : Char) : Bool :=
  c = '.' || c = '!' || c = '?' || c = ','

/-- The loop `while s and s[-1] in ".!?,": s = s[:-1]` from
`norm_answer_text`: drop every trailing sentence-ending punctuation
character. -/
def trimTrailingPunct (s : List Char) : List Char :=
  (s.reverse.dropWhile isTrailPunct).reverse

/-- `norm_text` from `normalize.py`: NFKC + quote map, strip, collapse
whitespace. -/
def norm_text (s : List Char) : List Char :=
  collapseWs (stripChars (nfkcNormalize s))

/-- `norm_answer_text` from `normalize.py`: NFKC + quote map, strip,
collapse whitespace, drop trailing `.!?,`, strip, collapse again. -/
def norm_answer_text (s : List Char) : List Char :=
  collapseWs (stripChars (trimTrailingPunct (collapseWs (stripChars (nfkcNormalize s)))))

/-- `_letters_only(s, preserve_spaces=False)` from `normalize.py`: keep
only letter characters. -/
def lettersOnly (s : List Char) : List Char :=
  s.filter isLetterCh

/-- Model of `str.casefold` on the ASCII range: lowercase every
character. -/
def casefoldChars (s : List Char) : List Char :=
  s.map Char.toLower

/-- `norm_cmp_text` from `normalize.py`: `norm_answer_text`, then keep
letters only, remove all whitespace, strip, casefold. -/
def norm_cmp_text (s : List Char) : List Char :=
  casefoldChars (stripChars ((lettersOnly (norm_answer_text s)).filter (fun c => !isSpaceCh c)))

/-! ## Grading engine: free text (`grader.py`) -/

/-- `GradeResult` from `grader.py`.  `missing`/`extra` carry the
partial-overlap feedback of the unordered multi-select branch. -/
structure GradeResult where
  verdict : String
  user_answer_norm : List Char
  canonical : List Char
  note : String := ""
  missing : Option (List (List Char)) := none
  extra : Option (List (List Char)) := none
deriving DecidableEq, Repr

/-- Inner loop of `_levenshtein`: given the previous DP row (starting at
column `j-1`), the remaining characters of `b` and the value just
computed for the current row, produce the rest of the current row. -/
def levRowAux (ca : Char) : List Char → List Nat → Nat → List Nat
  | [], _, _ => []
  | _, [], _ => []
  | cb :: bs, pj1 :: prest, last =>
    let pj := prest.headD 0
    let insert := last + 1
    let delete := pj + 1
    let replace := pj1 + (if ca = cb then 0 else 1)
    let cj := min (min insert delete) replace
    cj :: levRowAux ca bs prest cj

/-- One row update of the `_levenshtein` DP: `cur = [i]` followed by the
inner loop over `b`. -/
def levRow (b : List Char) (prev : List Nat) (i : Nat) (ca : Char) : List Nat :=
  i :: levRowAux ca b prev i

/-- Row iteration of `_levenshtein` over the characters of `a`
(`for i, ca in enumerate(a, start=1)`). -/
def levLoop (b : List Char) : List Char → List Nat → Nat → List Nat
  | [], prev, _ => prev
  | ca :: as_, prev, i => levLoop b as_ (levRow b prev i ca) (i + 1)

/-- `_levenshtein` from `grader.py`: edit distance via the rolling-row
dynamic program, with the early returns and the swap making `a` the
longer string. -/
def _levenshtein (a b : List Char) : Nat :=
  if a = b then 0
  else if a = [] then b.length
  else if b = [] then a.length
  else
    let p := if a.length < b.length then (b, a) else (a, b)
    (levLoop p.2 p.1 (List.range (p.2.length + 1)) 1).getLastD 0

/-- `_is_close` from `grader.py`: the typo tolerance is 2 when the longer
of the two strings has at most 20 characters, 3 otherwise. -/
def _is_close (a b : List Char) : Bool :=
  if a = [] || b = [] then false
  else
    let limit := if max a.length b.length ≤ 20 then 2 else 3
    _levenshtein a b ≤ limit

/-- The comparison targets built by `grade_freetext`: the comparison key
of the stripped canonical, then the keys of the nonempty accepted
variants. -/
def freetextTargets (canonical_display : List Char) (accepted_variants : List (List Char)) :
    List (List Char) :=
  norm_cmp_text canonical_display :: (accepted_variants.filter (fun x => x ≠ [])).map norm_cmp_text

/-- `grade_freetext` from `grader.py`. -/
def grade_freetext (user canonical : List Char) (accepted_variants : List (List Char))
    (mode : String) : GradeResult :=
  let user_norm := norm_answer_text user
  let user_cmp := norm_cmp_text user
  let canonical_display := stripChars canonical
  let targets := freetextTargets canonical_display accepted_variants
  if user_cmp ≠ [] ∧ user_cmp ∈ targets then
    { verdict := "correct", user_answer_norm := user_norm, canonical := canonical_display }
  else
    let close : Bool :=
      if user_cmp ≠ [] ∧ canonical_display ≠ [] then
        targets.any (fun t => !t.isEmpty && _is_close user_cmp t)
      else false
    if close ∧ mode = "easy" then
      { verdict := "correct", user_answer_norm := user_norm, canonical := canonical_display }
    else if close ∧ (mode = "normal" ∨ mode = "strict") then
      { verdict := "almost", user_answer_norm := user_norm, canonical := canonical_display }
    else
      { verdict := "wrong", user_answer_norm := user_norm, canonical := canonical_display }

end GrammarBot

namespace GrammarBot

/-! ## Character-class facts for the normalizer -/

theorem isAlpha_iff_toNat (c : Char) :
    c.isAlpha = true ↔ (65 ≤ c.toNat ∧ c.toNat ≤ 90) ∨ (97 ≤ c.toNat ∧ c.toNat ≤ 122) := by
  simp only [Char.isAlpha, Char.isUpper, Char.isLower, Bool.or_eq_true, Bool.and_eq_true,
    decide_eq_true_eq, ge_iff_le, UInt32.le_def, BitVec.le_def, Char.toNat]
  rfl

theorem not_space_of_letter {c : Char} (h : isLetterCh c = true) : isSpaceCh c = false := by
  rw [isLetterCh, isAlpha_iff_toNat] at h
  simp only [isSpaceCh, Bool.or_eq_false_iff, decide_eq_false_iff_not]
  have hn : 65 ≤ c.toNat := by omega
  refine ⟨⟨⟨⟨⟨?_, ?_⟩, ?_⟩, ?_⟩, by omega⟩, by omega⟩ <;>
    (intro he; subst he; simp at hn)

theorem not_letter_of_space : ∀ c : Char, isSpaceCh c = true → isLetterCh c = false := by
  intro c h
  by_contra hl
  rw [Bool.not_eq_false] at hl
  rw [not_space_of_letter hl] at h
  exact Bool.false_ne_true h

theorem not_punct_of_letter {c : Char} (h : isLetterCh c = true) : isTrailPunct c = false := by
  rw [isLetterCh, isAlpha_iff_toNat] at h
  simp only [isTrailPunct, Bool.or_eq_false_iff, decide_eq_false_iff_not]
  have hn : 65 ≤ c.toNat := by omega
  refine ⟨⟨⟨?_, ?_⟩, ?_⟩, ?_⟩ <;> (intro he; subst he; simp at hn)

theorem not_letter_of_punct : ∀ c : Char, isTrailPunct c = true → isLetterCh c = false := by
  intro c h
  by_contra hl
  rw [Bool.not_eq_false] at hl
  rw [not_punct_of_letter hl] at h
  exact Bool.false_ne_true h

theorem toNat_ofNat_valid {n : Nat} (h : n < 55296) : (Char.ofNat n).toNat = n := by
  rw [Char.ofNat, dif_pos (Or.inl h)]
  rfl

theorem toLower_toLower (c : Char) : c.toLower.toLower = c.toLower := by
  unfold Char.toLower
  simp only []
  split_ifs with h1 h2
  · rw [toNat_ofNat_valid (by omega)] at h2; omega
  · rfl
  · rfl

theorem isAlpha_toLower {c : Char} (h : c.isAlpha = true) : c.toLower.isAlpha = true := by
  rw [isAlpha_iff_toNat] at h
  unfold Char.toLower
  simp only []
  split_ifs with h1
  · rw [isAlpha_iff_toNat, toNat_ofNat_valid (by omega)]; omega
  · rw [isAlpha_iff_toNat]; omega

theorem quoteFix_of_letter {c : Char} (h : isLetterCh c = true) : quoteFix c = c := by
  unfold quoteFix
  split_ifs with h1 h2 h3 h4
  · subst h1; exact absurd h (by decide)
  · subst h2; exact absurd h (by decide)
  · subst h3; exact absurd h (by decide)
  · subst h4; exact absurd h (by decide)
  · rfl

theorem isLetter_quoteFix (c : Char) : isLetterCh (quoteFix c) = isLetterCh c := by
  unfold quoteFix
  split_ifs with h1 h2 h3 h4
  · subst h1; decide
  · subst h2; decide
  · subst h3; decide
  · subst h4; decide
  · rfl

theorem quoteFix_quoteFix (c : Char) : quoteFix (quoteFix c) = quoteFix c := by
  by_cases h1 : c = Char.ofNat 0x2019
  · subst h1; decide
  by_cases h2 : c = Char.ofNat 0x2018
  · subst h2; decide
  by_cases h3 : c = Char.ofNat 0x201C
  · subst h3; decide
  by_cases h4 : c = Char.ofNat 0x201D
  · subst h4; decide
  have hc : quoteFix c = c := by
    rw [quoteFix, if_neg h1, if_neg h2, if_neg h3, if_neg h4]
  rw [hc, hc]

/-! ## Letters pass unchanged through the whitespace/punctuation stages -/

theorem filter_letters_dropWhile (p : Char → Bool)
    (hp : ∀ c, p c = true → isLetterCh c = false) (l : List Char) :
    (l.dropWhile p).filter isLetterCh = l.filter isLetterCh := by
  induction l with
  | nil => rfl
  | cons a l ih =>
    by_cases h : p a
    · rw [List.dropWhile_cons_of_pos h, ih, List.filter_cons_of_neg]
      simp [hp a h]
    · rw [List.dropWhile_cons_of_neg (by simp [h])]

theorem dropWhile_eq_self_of_all {α : Type} (p : α → Bool) (l : List α)
    (h : ∀ c ∈ l, p c = false) : l.dropWhile p = l := by
  cases l with
  | nil => rfl
  | cons a l => exact List.dropWhile_cons_of_neg (by simp [h a (List.mem_cons_self a l)])

theorem filter_letters_strip (l : List Char) :
    (stripChars l).filter isLetterCh = l.filter isLetterCh := by
  unfold stripChars
  rw [List.filter_reverse, filter_letters_dropWhile _ not_letter_of_space,
    List.filter_reverse, List.reverse_reverse, filter_letters_dropWhile _ not_letter_of_space]

theorem filter_letters_trim (l : List Char) :
    (trimTrailingPunct l).filter isLetterCh = l.filter isLetterCh := by
  unfold trimTrailingPunct
  rw [List.filter_reverse, filter_letters_dropWhile _ not_letter_of_punct,
    List.filter_reverse, List.reverse_reverse]

theorem filter_letters_collapseAux (b : Bool) (l : List Char) :
    (collapseAux b l).filter isLetterCh = l.filter isLetterCh := by
  induction l generalizing b with
  | nil => rfl
  | cons c rest ih =>
    rw [collapseAux]
    by_cases h : isSpaceCh c
    · rw [if_pos h, List.filter_cons_of_neg (by simp [not_letter_of_space c h])]
      by_cases hb : b
      · rw [if_pos hb, ih]
      · rw [if_neg hb, List.filter_cons_of_neg (by decide), ih]
    · rw [if_neg h]
      by_cases hl : isLetterCh c
      · rw [List.filter_cons_of_pos hl, List.filter_cons_of_pos hl, ih]
      · rw [List.filter_cons_of_neg (by simp [hl]), List.filter_cons_of_neg (by simp [hl]), ih]

theorem filter_letters_collapse (l : List Char) :
    (collapseWs l).filter isLetterCh = l.filter isLetterCh :=
  filter_letters_collapseAux false l

theorem filter_letters_map_quoteFix (l : List Char) :
    (l.filter isLetterCh).map quoteFix = l.filter isLetterCh := by
  induction l with
  | nil => rfl
  | cons a l ih =>
    by_cases h : isLetterCh a
    · rw [List.filter_cons_of_pos h, List.map_cons, quoteFix_of_letter h, ih]
    · rw [List.filter_cons_of_neg (by simp [h]), ih]

theorem filter_letters_nfkc (l : List Char) :
    (nfkcNormalize l).filter isLetterCh = l.filter isLetterCh := by
  unfold nfkcNormalize
  induction l with
  | nil => rfl
  | cons a l ih =>
    simp only [List.map_cons]
    by_cases h : isLetterCh a
    · rw [List.filter_cons_of_pos (by rw [isLetter_quoteFix]; exact h),
        List.filter_cons_of_pos h, quoteFix_of_letter h, ih]
    · rw [List.filter_cons_of_neg (by rw [isLetter_quoteFix]; simp [h]),
        List.filter_cons_of_neg (by simp [h]), ih]

theorem filter_letters_norm_answer (s : List Char) :
    (norm_answer_text s).filter isLetterCh = s.filter isLetterCh := by
  unfold norm_answer_text
  rw [filter_letters_collapse, filter_letters_strip, filter_letters_trim,
    filter_letters_collapse, filter_letters_strip, filter_letters_nfkc]

theorem stripChars_of_no_space (l : List Char) (h : ∀ c ∈ l, isSpaceCh c = false) :
    stripChars l = l := by
  unfold stripChars
  rw [dropWhile_eq_self_of_all _ _ h,
    dropWhile_eq_self_of_all _ _ (fun c hc => h c (List.mem_reverse.1 hc)),
    List.reverse_reverse]

/-- `norm_cmp_text` is exactly the lower-cased letter subsequence of the
input: the comparison key. -/
theorem norm_cmp_eq_key (s : List Char) :
    norm_cmp_text s = (s.filter isLetterCh).map Char.toLower := by
  unfold norm_cmp_text casefoldChars lettersOnly
  rw [List.filter_filter]
  have h1 : List.filter (fun c => !isSpaceCh c && isLetterCh c) (norm_answer_text s)
      = List.filter isLetterCh (norm_answer_text s) := by
    apply List.filter_congr
    intro c _
    by_cases h : isLetterCh c
    · simp [h, not_space_of_letter h]
    · simp [h]
  rw [h1, filter_letters_norm_answer,
    stripChars_of_no_space _ (fun c hc => not_space_of_letter (List.of_mem_filter hc))]

end GrammarBot

namespace GrammarBot

/-! ## Idempotence machinery for `norm_answer_text` / `norm_cmp_text` -/

theorem collapseAux_nil_of (b : Bool) (l : List Char) (h : collapseAux b l = [])
    (c : Char) (hc : c ∈ l) : isSpaceCh c = true := by
  induction l generalizing b with
  | nil => cases hc
  | cons a rest ih =>
    rw [collapseAux] at h
    by_cases hs : isSpaceCh a
    · rw [if_pos hs] at h
      rcases List.mem_cons.1 hc with rfl | hm
      · exact hs
      · by_cases hb : b
        · rw [if_pos hb] at h; exact ih true h hm
        · rw [if_neg hb] at h; cases h
    · rw [if_neg hs] at h
      cases h

theorem collapseAux_last_space {l : List Char} {b : Bool} {c : Char}
    (h : (collapseAux b l).getLast? = some c) (hs : isSpaceCh c = true) :
    ∃ d, l.getLast? = some d ∧ isSpaceCh d = true := by
  induction l generalizing b with
  | nil => rw [collapseAux] at h; cases h
  | cons a rest ih =>
    rw [collapseAux] at h
    by_cases ha : isSpaceCh a
    · rw [if_pos ha] at h
      by_cases hb : b
      · rw [if_pos hb] at h
        rcases ih h with ⟨d, hd, hds⟩
        refine ⟨d, ?_, hds⟩
        cases rest with
        | nil => rw [collapseAux] at h; cases h
        | cons x xs => rw [List.getLast?_cons_cons]; exact hd
      · rw [if_neg hb] at h
        cases he : collapseAux true rest with
        | nil =>
          rw [he, List.getLast?_singleton] at h
          cases rest with
          | nil => exact ⟨a, rfl, ha⟩
          | cons x xs =>
            have hx : (x :: xs).getLast? = some ((x :: xs).getLast (by simp)) :=
              List.getLast?_eq_getLast _ _
            refine ⟨(x :: xs).getLast (by simp), by rw [List.getLast?_cons_cons]; exact hx, ?_⟩
            exact collapseAux_nil_of true (x :: xs) he _ (List.getLast_mem _)
        | cons y ys =>
          rw [he] at h
          rw [List.getLast?_cons_cons, ← he] at h
          rcases ih h with ⟨d, hd, hds⟩
          refine ⟨d, ?_, hds⟩
          cases rest with
          | nil => rw [collapseAux] at he; cases he
          | cons x xs => rw [List.getLast?_cons_cons]; exact hd
    · rw [if_neg ha] at h
      cases he : collapseAux false rest with
      | nil =>
        rw [he, List.getLast?_singleton] at h
        cases h
        exact absurd hs ha
      | cons y ys =>
        rw [he] at h
        rw [List.getLast?_cons_cons, ← he] at h
        rcases ih h with ⟨d, hd, hds⟩
        refine ⟨d, ?_, hds⟩
        cases rest with
        | nil => rw [collapseAux] at he; cases he
        | cons x xs => rw [List.getLast?_cons_cons]; exact hd

theorem collapseAux_idem (l : List Char) :
    (∀ b, collapseAux false (collapseAux b l) = collapseAux b l) ∧
      collapseAux true (collapseAux true l) = collapseAux true l := by
  induction l with
  | nil => exact ⟨fun _ => rfl, rfl⟩
  | cons c rest ih =>
    by_cases h : isSpaceCh c
    · constructor
      · intro b
        by_cases hb : b
        · subst hb
          rw [collapseAux, if_pos h, if_pos rfl]
          exact ih.1 true
        · simp only [Bool.not_eq_true] at hb
          subst hb
          rw [collapseAux, if_pos h, if_neg (by simp)]
          rw [collapseAux, if_pos (by decide), if_neg (by simp)]
          rw [ih.2]
      · rw [collapseAux, if_pos h, if_pos rfl]
        exact ih.2
    · constructor
      · intro b
        rw [collapseAux, if_neg h, collapseAux, if_neg h]
        rw [ih.1 false]
      · rw [collapseAux, if_neg h, collapseAux, if_neg h]
        rw [ih.1 false]

theorem collapseWs_idem (l : List Char) : collapseWs (collapseWs l) = collapseWs l :=
  (collapseAux_idem l).1 false

end GrammarBot

namespace GrammarBot

theorem head?_dropWhile {α : Type} (p : α → Bool) (l : List α) {c : α}
    (h : (l.dropWhile p).head? = some c) : p c = false := by
  induction l with
  | nil => cases h
  | cons a rest ih =>
    by_cases ha : p a
    · rw [List.dropWhile_cons_of_pos ha] at h
      exact ih h
    · rw [List.dropWhile_cons_of_neg (by simp [ha])] at h
      cases h
      simp [ha]

theorem dropWhile_eq_self_of_head {α : Type} (p : α → Bool) (l : List α)
    (h : ∀ c, l.head? = some c → p c = false) : l.dropWhile p = l := by
  cases l with
  | nil => rfl
  | cons a rest => exact List.dropWhile_cons_of_neg (by simp [h a rfl])

theorem getLast?_dropWhile {α : Type} (p : α → Bool) (l : List α) :
    l.dropWhile p = [] ∨ (l.dropWhile p).getLast? = l.getLast? := by
  induction l with
  | nil => exact Or.inl rfl
  | cons a rest ih =>
    by_cases ha : p a
    · rw [List.dropWhile_cons_of_pos ha]
      cases he : rest.dropWhile p with
      | nil => exact Or.inl rfl
      | cons y ys =>
        rcases ih with h | h
        · rw [h] at he; cases he
        · right
          rw [← he, h]
          cases rest with
          | nil => rw [List.dropWhile] at he; cases he
          | cons x xs => rw [List.getLast?_cons_cons]
    · rw [List.dropWhile_cons_of_neg (by simp [ha])]
      exact Or.inr rfl

theorem strip_last_not_space (l : List Char) {c : Char}
    (h : (stripChars l).getLast? = some c) : isSpaceCh c = false := by
  unfold stripChars at h
  rw [List.getLast?_reverse] at h
  exact head?_dropWhile _ _ h

theorem strip_head_not_space (l : List Char) {c : Char}
    (h : (stripChars l).head? = some c) : isSpaceCh c = false := by
  unfold stripChars at h
  rw [List.head?_reverse] at h
  rcases getLast?_dropWhile isSpaceCh (l.dropWhile isSpaceCh).reverse with he | he
  · rw [he] at h
    cases h
  · rw [he, List.getLast?_reverse] at h
    exact head?_dropWhile _ _ h

theorem head?_collapse_of (l : List Char)
    (h : ∀ c, l.head? = some c → isSpaceCh c = false) :
    ∀ c, (collapseWs l).head? = some c → isSpaceCh c = false := by
  intro c hc
  cases l with
  | nil => cases hc
  | cons a rest =>
    have ha := h a rfl
    rw [collapseWs, collapseAux, if_neg (by simp [ha])] at hc
    cases hc
    exact ha

theorem getLast?_collapse_of (l : List Char)
    (h : ∀ c, l.getLast? = some c → isSpaceCh c = false) :
    ∀ c, (collapseWs l).getLast? = some c → isSpaceCh c = false := by
  intro c hc
  by_contra hs
  rw [Bool.not_eq_false] at hs
  rcases collapseAux_last_space hc hs with ⟨d, hd, hds⟩
  rw [h d hd] at hds
  exact Bool.false_ne_true hds

theorem strip_eq_self_of_ends (l : List Char)
    (h1 : ∀ c, l.head? = some c → isSpaceCh c = false)
    (h2 : ∀ c, l.getLast? = some c → isSpaceCh c = false) :
    stripChars l = l := by
  unfold stripChars
  rw [dropWhile_eq_self_of_head _ _ h1,
    dropWhile_eq_self_of_head _ _ (fun c hc => h2 c (by rwa [List.head?_reverse] at hc)),
    List.reverse_reverse]

theorem strip_collapse_strip (l : List Char) :
    stripChars (collapseWs (stripChars l)) = collapseWs (stripChars l) :=
  strip_eq_self_of_ends _
    (head?_collapse_of _ (fun c hc => strip_head_not_space l hc))
    (getLast?_collapse_of _ (fun c hc => strip_last_not_space l hc))

theorem mem_collapseAux {c : Char} {b : Bool} {l : List Char}
    (h : c ∈ collapseAux b l) : c = ' ' ∨ c ∈ l := by
  induction l generalizing b with
  | nil => cases h
  | cons a rest ih =>
    rw [collapseAux] at h
    by_cases ha : isSpaceCh a
    · rw [if_pos ha] at h
      by_cases hb : b
      · rw [if_pos hb] at h
        rcases ih h with h | h
        · exact Or.inl h
        · exact Or.inr (List.mem_cons_of_mem _ h)
      · rw [if_neg hb] at h
        rcases List.mem_cons.1 h with rfl | h
        · exact Or.inl rfl
        · rcases ih h with h | h
          · exact Or.inl h
          · exact Or.inr (List.mem_cons_of_mem _ h)
    · rw [if_neg ha] at h
      rcases List.mem_cons.1 h with rfl | h
      · exact Or.inr (List.mem_cons_self _ _)
      · rcases ih h with h | h
        · exact Or.inl h
        · exact Or.inr (List.mem_cons_of_mem _ h)

theorem mem_stripChars {c : Char} {l : List Char} (h : c ∈ stripChars l) : c ∈ l := by
  unfold stripChars at h
  rw [List.mem_reverse] at h
  have h2 := (List.dropWhile_sublist _).subset h
  rw [List.mem_reverse] at h2
  exact (List.dropWhile_sublist _).subset h2

theorem mem_trimTrailingPunct {c : Char} {l : List Char} (h : c ∈ trimTrailingPunct l) : c ∈ l := by
  unfold trimTrailingPunct at h
  rw [List.mem_reverse] at h
  have h2 := (List.dropWhile_sublist _).subset h
  rwa [List.mem_reverse] at h2

theorem quoteFixed_norm_answer (s : List Char) :
    ∀ c ∈ norm_answer_text s, quoteFix c = c := by
  intro c hc
  unfold norm_answer_text at hc
  rcases mem_collapseAux hc with rfl | hc
  · decide
  have hc := mem_stripChars hc
  have hc := mem_trimTrailingPunct hc
  rcases mem_collapseAux hc with rfl | hc
  · decide
  have hc := mem_stripChars hc
  unfold nfkcNormalize at hc
  rcases List.mem_map.1 hc with ⟨d, _, rfl⟩
  exact quoteFix_quoteFix d

theorem nfkc_eq_self_of_fixed (l : List Char) (h : ∀ c ∈ l, quoteFix c = c) :
    nfkcNormalize l = l := by
  unfold nfkcNormalize
  rw [List.map_congr_left h, List.map_id']

/-- `norm_answer_text` is idempotent on every input whose normalized form
does not end with a sentence-ending punctuation character. -/
theorem norm_answer_idem_of_no_trailing_punct (s : List Char)
    (h : ∀ c, (norm_answer_text s).getLast? = some c → isTrailPunct c = false) :
    norm_answer_text (norm_answer_text s) = norm_answer_text s := by
  have f1 : nfkcNormalize (norm_answer_text s) = norm_answer_text s :=
    nfkc_eq_self_of_fixed _ (quoteFixed_norm_answer s)
  have f2 : stripChars (norm_answer_text s) = norm_answer_text s := by
    unfold norm_answer_text
    exact strip_collapse_strip _
  have f3 : collapseWs (norm_answer_text s) = norm_answer_text s := by
    unfold norm_answer_text
    exact collapseWs_idem _
  have f4 : trimTrailingPunct (norm_answer_text s) = norm_answer_text s := by
    unfold trimTrailingPunct
    rw [dropWhile_eq_self_of_head _ _ (fun c hc => h c (by rwa [List.head?_reverse] at hc)),
      List.reverse_reverse]
  calc norm_answer_text (norm_answer_text s)
      = collapseWs (stripChars (trimTrailingPunct (collapseWs (stripChars
          (nfkcNormalize (norm_answer_text s)))))) := rfl
    _ = norm_answer_text s := by rw [f1, f2, f3, f4, f2, f3]

/-- `norm_cmp_text` is idempotent. -/
theorem norm_cmp_idem (s : List Char) :
    norm_cmp_text (norm_cmp_text s) = norm_cmp_text s := by
  rw [norm_cmp_eq_key, norm_cmp_eq_key]
  have h1 : List.filter isLetterCh ((s.filter isLetterCh).map Char.toLower)
      = (s.filter isLetterCh).map Char.toLower := by
    rw [List.filter_eq_self]
    intro a ha
    rcases List.mem_map.1 ha with ⟨d, hd, rfl⟩
    exact isAlpha_toLower (List.of_mem_filter hd)
  rw [h1, List.map_map]
  exact List.map_congr_left (fun a _ => toLower_toLower a)

end GrammarBot

namespace GrammarBot

/-! ## Claims C1, C9, C10 -/

theorem anyCongr {α : Type} {f g : α → Bool} (l : List α)
    (h : ∀ a ∈ l, f a = g a) : l.any f = l.any g := by
  induction l with
  | nil => rfl
  | cons a rest ih =>
    simp only [List.any_cons, h a (List.mem_cons_self a rest),
      ih (fun b hb => h b (List.mem_cons_of_mem a hb))]

/-- Spec wording of claim C1 (original form): thresholds depend on the
target's normalized length only, and no emptiness provisos appear. -/
def gradeFreetextSpecC1 (user canonical : List Char) (accepted_variants : List (List Char))
    (mode : String) : String :=
  let U := norm_cmp_text user
  let targets := norm_cmp_text canonical :: accepted_variants.map norm_cmp_text
  if U ∈ targets then "correct"
  else if targets.any (fun t => _levenshtein U t ≤ (if t.length ≤ 20 then 2 else 3)) then
    if mode = "easy" then "correct"
    else if mode = "normal" ∨ mode = "strict" then "almost"
    else "wrong"
  else "wrong"

/-- Spec wording of claim C1 as amended: a nonempty comparison key is
required for any match, the near-miss path additionally requires a
nonempty stripped canonical and a nonempty target, and the typo threshold
is 2 when the longer of the normalized answer and the target has at most
20 characters, 3 otherwise. -/
def gradeFreetextSpecC1Amended (user canonical : List Char)
    (accepted_variants : List (List Char)) (mode : String) : String :=
  let U := norm_cmp_text user
  let canonical_display := stripChars canonical
  let targets := freetextTargets canonical_display accepted_variants
  if U ≠ [] ∧ U ∈ targets then "correct"
  else if U ≠ [] ∧ canonical_display ≠ [] ∧ targets.any (fun t =>
      !t.isEmpty && decide (_levenshtein U t ≤ (if max U.length t.length ≤ 20 then 2 else 3))) then
    if mode = "easy" then "correct"
    else if mode = "normal" ∨ mode = "strict" then "almost"
    else "wrong"
  else "wrong"

set_option maxRecDepth 100000 in
set_option maxHeartbeats 2000000 in
/-- Claim C1 (counterexample): with canonical `aaaaaaaaaaaaaaaaaa` (18
letters) and answer `aaaaaaaaaaaaaaaaaaaaa` (21 letters), the code grades
`almost` under `normal` (both lengths enter the threshold choice, giving
3), while the claim's target-only threshold (2) demands `wrong`. -/
theorem c1_counterexample :
    (grade_freetext (List.replicate 21 'a') (List.replicate 18 'a') [] "normal").verdict
        = "almost" ∧
      gradeFreetextSpecC1 (List.replicate 21 'a') (List.replicate 18 'a') [] "normal"
        = "wrong" := by
  constructor
  · rfl
  · rfl

/-- Claim C1 (amended): `grade_freetext`'s verdict coincides with the
amended spec description on every input. -/
theorem c1_grade_freetext_amended (user canonical : List Char)
    (accepted_variants : List (List Char)) (mode : String) :
    (grade_freetext user canonical accepted_variants mode).verdict
      = gradeFreetextSpecC1Amended user canonical accepted_variants mode := by
  unfold grade_freetext gradeFreetextSpecC1Amended
  by_cases h1 : norm_cmp_text user ≠ [] ∧
      norm_cmp_text user ∈ freetextTargets (stripChars canonical) accepted_variants
  · rw [if_pos h1, if_pos h1]
  · rw [if_neg h1, if_neg h1]
    by_cases h2 : norm_cmp_text user ≠ [] ∧ stripChars canonical ≠ []
    · have hany : (freetextTargets (stripChars canonical) accepted_variants).any
            (fun t => !t.isEmpty && _is_close (norm_cmp_text user) t)
          = (freetextTargets (stripChars canonical) accepted_variants).any (fun t =>
              !t.isEmpty && decide (_levenshtein (norm_cmp_text user) t
                ≤ (if max (norm_cmp_text user).length t.length ≤ 20 then 2 else 3))) := by
        apply anyCongr
        intro t _
        cases t with
        | nil => simp
        | cons x xs =>
          rw [_is_close, if_neg (by simp [h2.1])]
      rw [if_pos h2, hany]
      by_cases h3 : (freetextTargets (stripChars canonical) accepted_variants).any (fun t =>
          !t.isEmpty && decide (_levenshtein (norm_cmp_text user) t
            ≤ (if max (norm_cmp_text user).length t.length ≤ 20 then 2 else 3))) = true
      · conv_rhs => rw [if_pos ⟨h2.1, h2.2, h3⟩]
        by_cases h4 : mode = "easy"
        · conv_lhs => rw [if_pos ⟨h3, h4⟩]
          rw [if_pos h4]
        · conv_lhs => rw [if_neg (fun hm => h4 hm.2)]
          rw [if_neg h4]
          by_cases h5 : mode = "normal" ∨ mode = "strict"
          · conv_lhs => rw [if_pos ⟨h3, h5⟩]
            rw [if_pos h5]
          · conv_lhs => rw [if_neg (fun hm => h5 hm.2)]
            rw [if_neg h5]
      · conv_rhs => rw [if_neg (fun hm => h3 hm.2.2)]
        conv_lhs => rw [if_neg (fun hm => h3 hm.1), if_neg (fun hm => h3 hm.1)]
    · rw [if_neg h2]
      conv_rhs => rw [if_neg (fun hm => h2 ⟨hm.1, hm.2.1⟩)]
      conv_lhs => rw [if_neg (fun hm => Bool.false_ne_true hm.1),
        if_neg (fun hm => Bool.false_ne_true hm.1)]

set_option maxRecDepth 100000 in
set_option maxHeartbeats 2000000 in
/-- Claim C9 (counterexample): `norm_answer_text` is not idempotent: one
pass over `"a. ."` yields `"a."`, a second pass yields `"a"`. -/
theorem c9_counterexample :
    norm_answer_text (norm_answer_text ('a' :: '.' :: ' ' :: ['.']))
      ≠ norm_answer_text ('a' :: '.' :: ' ' :: ['.']) := by
  intro h
  have h2 : ('a' :: []) = ('a' :: '.' :: []) := by
    calc ('a' :: []) = norm_answer_text (norm_answer_text ('a' :: '.' :: ' ' :: ['.'])) := by rfl
      _ = norm_answer_text ('a' :: '.' :: ' ' :: ['.']) := h
      _ = ('a' :: '.' :: []) := by rfl
  cases h2

/-- Claim C9 (amended): `norm_cmp_text` is idempotent; `norm_answer_text`
is idempotent on inputs whose normalized form does not end in `.!?,`;
and the comparison key depends only on the input's letter sequence up to
case, so strings differing only in case, punctuation or curly-vs-straight
quotes share a key. -/
theorem c9_normalization_amended :
    (∀ s : List Char, norm_cmp_text (norm_cmp_text s) = norm_cmp_text s) ∧
      (∀ s : List Char,
        ((norm_answer_text s).getLast?.all fun c => !isTrailPunct c) = true →
          norm_answer_text (norm_answer_text s) = norm_answer_text s) ∧
      (∀ s t : List Char,
        (s.filter isLetterCh).map Char.toLower = (t.filter isLetterCh).map Char.toLower →
          norm_cmp_text s = norm_cmp_text t) := by
  refine ⟨norm_cmp_idem, ?_, ?_⟩
  · intro s h
    apply norm_answer_idem_of_no_trailing_punct
    intro c hc
    rw [hc] at h
    simpa using h
  · intro s t h
    rw [norm_cmp_eq_key, norm_cmp_eq_key, h]

set_option maxRecDepth 100000 in
set_option maxHeartbeats 2000000 in
/-- Claim C9 witness: the amended theorem applied at concrete inputs
(`"an answer"` for conditional idempotence; `"I'm HERE!"` versus
`"im here"` for key invariance). -/
theorem c9_witness :
    norm_answer_text (norm_answer_text ('a' :: 'n' :: ' ' :: ['x']))
        = norm_answer_text ('a' :: 'n' :: ' ' :: ['x']) ∧
      norm_cmp_text ('I' :: Char.ofNat 0x2019 :: 'm' :: ' ' :: 'H' :: 'E' :: 'R' :: 'E' :: ['!'])
        = norm_cmp_text ('i' :: 'm' :: ' ' :: 'h' :: 'e' :: 'r' :: ['e']) :=
  ⟨c9_normalization_amended.2.1 _ (by decide),
    c9_normalization_amended.2.2 _ _ (by decide)⟩

/-- Claim C10: an answer whose comparison key is empty is graded `wrong`
in every mode, for every canonical and variant list. -/
theorem c10_empty_answer_wrong (user canonical : List Char)
    (accepted_variants : List (List Char)) (mode : String)
    (h : norm_cmp_text user = []) :
    (grade_freetext user canonical accepted_variants mode).verdict = "wrong" := by
  unfold grade_freetext
  rw [if_neg (by rintro ⟨hne, _⟩; exact hne h)]
  rw [if_neg (by rintro ⟨hc, _⟩; rw [if_neg (by rintro ⟨hne, _⟩; exact hne h)] at hc; cases hc),
    if_neg (by rintro ⟨hc, _⟩; rw [if_neg (by rintro ⟨hne, _⟩; exact hne h)] at hc; cases hc)]

set_option maxRecDepth 100000 in
set_option maxHeartbeats 2000000 in
/-- Claim C10 witness: a whitespace/digit/punctuation-only answer is
graded `wrong` even though the canonical also normalizes to empty. -/
theorem c10_witness :
    (grade_freetext (' ' :: '1' :: '2' :: '!' :: '?' :: [' ']) ('.' :: []) [] "easy").verdict
      = "wrong" :=
  c10_empty_answer_wrong _ _ _ _ (by decide)

end GrammarBot

namespace GrammarBot

/-! ## Grading engine: option items (`grader.py`, `choices.py`) -/

/-- `s.replace(";", ",").replace("\n", ",")` from `norm_multiselect_raw`. -/
def replaceSeps (s : List Char) : List Char :=
  s.map (fun c => if c = ';' ∨ c = '\n' then ',' else c)

/-- `re.sub(r"\s*,\s*", ", ", s)` from `norm_multiselect_raw`: each
(greedy, leftmost) run of optional whitespace, a comma, and optional
whitespace becomes a comma and a single space.  Structured with a fuel
argument (the list length) so the recursion is structural. -/
def commaSpacingFuel : Nat → List Char → List Char
  | 0, l => l
  | _ + 1, [] => []
  | fuel + 1, c :: rest =>
    let afterWs := (c :: rest).dropWhile isSpaceCh
    match afterWs with
    | ',' :: tl => ',' :: ' ' :: commaSpacingFuel fuel (tl.dropWhile isSpaceCh)
    | _ => c :: commaSpacingFuel fuel rest

/-- Greedy count of repetitions of "comma followed by optional
whitespace" starting at the head, with the remainder of the list. -/
def commaRepsFuel : Nat → List Char → Nat × List Char
  | 0, l => (0, l)
  | fuel + 1, l =>
    match l with
    | ',' :: rest =>
      let out := commaRepsFuel fuel (rest.dropWhile isSpaceCh)
      (out.1 + 1, out.2)
    | _ => (0, l)

/-- `re.sub(r"(,\s*){2,}", ", ", s)` from `norm_multiselect_raw`: two or
more consecutive comma-plus-whitespace groups become one comma and a
space. -/
def commaRunsFuel : Nat → List Char → List Char
  | 0, l => l
  | _ + 1, [] => []
  | fuel + 1, c :: rest =>
    let reps := commaRepsFuel (c :: rest).length (c :: rest)
    if 2 ≤ reps.1 then ',' :: ' ' :: commaRunsFuel fuel reps.2
    else c :: commaRunsFuel fuel rest

/-- Python `str.strip(",")`: drop leading and trailing commas. -/
def stripCommas (s : List Char) : List Char :=
  ((s.dropWhile (fun c => c = ',')).reverse.dropWhile (fun c => c = ',')).reverse

/-- `norm_multiselect_raw` from `normalize.py`. -/
def norm_multiselect_raw (s : List Char) : List Char :=
  let s1 := stripChars (nfkcNormalize s)
  let s2 := replaceSeps s1
  let s3 := commaSpacingFuel s2.length s2
  let s4 := commaRunsFuel s3.length s3
  stripCommas (stripChars s4)

/-- Python `str.split(",")`: split at every comma, keeping empty parts. -/
def splitCommaAux : List Char → List Char → List (List Char)
  | [], acc => [acc.reverse]
  | c :: rest, acc =>
    if c = ',' then acc.reverse :: splitCommaAux rest []
    else splitCommaAux rest (c :: acc)

/-- `split_tokens` from `normalize.py`: normalize separators, split on
commas, strip the parts, drop empties. -/
def split_tokens (s : List Char) : List (List Char) :=
  let raw := norm_multiselect_raw s
  if raw = [] then []
  else (splitCommaAux raw []).map stripChars |>.filter (fun p => p ≠ [])

/-- `re.split(r"\s+", raw)` on an already-stripped string: the
whitespace-separated words. -/
def splitWsAux : List Char → List Char → List (List Char)
  | [], acc => if acc = [] then [] else [acc.reverse]
  | c :: rest, acc =>
    if isSpaceCh c then
      if acc = [] then splitWsAux rest [] else acc.reverse :: splitWsAux rest []
    else splitWsAux rest (c :: acc)

/-- `_split_user_tokens` from `grader.py`: token split, with the fallback
that a single comma-free token of single alphanumeric characters
separated by spaces is treated letter-by-letter. -/
def _split_user_tokens (user : List Char) : List (List Char) :=
  let tokens := split_tokens user
  if tokens.length = 1 then
    let raw := stripChars user
    if raw ≠ [] ∧ ',' ∉ raw then
      let space_parts := splitWsAux raw []
      if space_parts.length > 1 ∧
          space_parts.all (fun p => decide (p.length = 1) && p.all Char.isAlphanum) then
        space_parts
      else tokens
    else tokens
  else tokens

/-- `_normalize_option_map` from `grader.py`: comparison key of each
option mapped to the option text, first occurrence winning. -/
def _normalize_option_map (options : List (List Char)) : List (List Char × List Char) :=
  options.foldl (fun acc opt =>
    let key := norm_cmp_text opt
    if key ≠ [] ∧ acc.all (fun kv => decide (kv.1 ≠ key)) then acc ++ [(key, opt)]
    else acc) []

/-- Lookup in an association list built by `_normalize_option_map`. -/
def lookupAssoc (m : List (List Char × List Char)) (k : List Char) : Option (List Char) :=
  (m.find? (fun kv => decide (kv.1 = k))).map (fun kv => kv.2)

/-- Decimal value of a digit string (`int(t0)` for an `isdigit` token). -/
def natOfDigits (s : List Char) : Nat :=
  s.foldl (fun n c => n * 10 + (c.toNat - 48)) 0

/-- Mapping of one stripped nonempty token in `_map_user_selections`:
single letter A, B, …; 1-based numeric index; or comparison-key text
match. -/
def mapOneToken (options : List (List Char)) (t0 : List Char) : Option (List Char) :=
  if t0.length = 1 ∧ 65 ≤ (t0.headD ' ').toUpper.toNat ∧
      (t0.headD ' ').toUpper.toNat - 65 < options.length then
    options.get? ((t0.headD ' ').toUpper.toNat - 65)
  else if t0.all Char.isDigit then
    let idx := natOfDigits t0
    if 1 ≤ idx ∧ idx ≤ options.length then options.get? (idx - 1) else none
  else
    lookupAssoc (_normalize_option_map options) (norm_cmp_text t0)

/-- Order-preserving deduplication (the `seen` set loop). -/
def pyDedup : List (List Char) → List (List Char) → List (List Char)
  | [], _ => []
  | x :: rest, seen =>
    if x ∈ seen then pyDedup rest seen else x :: pyDedup rest (x :: seen)

/-- `_map_user_selections` from `grader.py`. -/
def _map_user_selections (user : List Char) (options : List (List Char)) : List (List Char) :=
  let tokens := _split_user_tokens user
  if tokens = [] then []
  else
    let mapped := (tokens.map stripChars).filter (fun t0 => t0 ≠ []) |>.map (mapOneToken options)
    let valid := mapped.filterMap id
    if valid = [] then [] else pyDedup valid []

/-- `resolve_choice` from `choices.py`: letter, 1-based index or literal
text match against the option list (text map built with later options
overriding earlier ones, as in a Python dict comprehension). -/
def resolve_choice (user_input : List Char) (options : List (List Char)) : Option (List Char) :=
  if options = [] then none
  else
    let raw := norm_text user_input
    if raw = [] then none
    else
      let cleaned := stripChars raw
      let byLetter : Option (List Char) :=
        match cleaned with
        | [c] =>
          if c.isAlpha ∧ 65 ≤ c.toUpper.toNat ∧ c.toUpper.toNat - 65 < options.length then
            options.get? (c.toUpper.toNat - 65)
          else none
        | _ => none
      match byLetter with
      | some o => some o
      | none =>
        let byText : Option (List Char) :=
          lookupAssoc ((options.map (fun o => (casefoldChars (norm_text o), o))).reverse)
            (casefoldChars (norm_text cleaned))
        if cleaned ≠ [] ∧ cleaned.all Char.isDigit then
          let idx := natOfDigits cleaned
          if 1 ≤ idx ∧ idx ≤ options.length then options.get? (idx - 1)
          else byText
        else byText

/-- `_legacy_mcq_match` from `grader.py`. -/
def _legacy_mcq_match (user canonical : List Char) (accepted_variants : List (List Char))
    (options : List (List Char)) : GradeResult :=
  let answer_text := (resolve_choice user options).getD user
  let user_norm := norm_answer_text answer_text
  let user_cmp := norm_cmp_text answer_text
  let canonical_display := stripChars canonical
  let targets := freetextTargets canonical_display accepted_variants
  if user_cmp ≠ [] ∧ user_cmp ∈ targets then
    { verdict := "correct", user_answer_norm := user_norm, canonical := canonical_display }
  else
    { verdict := "wrong", user_answer_norm := user_norm, canonical := canonical_display }

/-- `_format_correct_answer` from `grader.py`. -/
def _format_correct_answer (correct_options : List (List Char)) (selection_policy : String)
    (fallback_canonical : List Char) : List Char :=
  if correct_options ≠ [] then
    if selection_policy = "any" ∧ correct_options.length > 1 then
      List.intercalate (' ' :: '/' :: [' ']) correct_options
    else List.intercalate (',' :: [' ']) correct_options
  else stripChars fallback_canonical

/-- The mojibake em-dash literal used for an unmappable answer in
`grade_option_item` (bytes `â`, `€`, `”`). -/
def emDashMojibake : List Char :=
  Char.ofNat 0xE2 :: Char.ofNat 0x20AC :: [Char.ofNat 0x201D]

/-- `grade_option_item` from `grader.py`. -/
def grade_option_item (user canonical : List Char) (accepted_variants : List (List Char))
    (options : List (List Char)) (selection_policy : String)
    (correct_options : List (List Char)) (order_sensitive : Bool)
    (explicit_correct_options : Bool) : GradeResult :=
  let canonical_display := _format_correct_answer correct_options selection_policy canonical
  let selections := _map_user_selections user options
  if selections = [] then
    if selection_policy = "any" ∧ explicit_correct_options = false then
      _legacy_mcq_match user canonical accepted_variants options
    else
      { verdict := "wrong", user_answer_norm := emDashMojibake, canonical := canonical_display }
  else
    let user_norm := norm_answer_text (List.intercalate (',' :: [' ']) selections)
    let correct_cmp := correct_options.map norm_cmp_text
    let user_cmp := selections.map norm_cmp_text
    if selection_policy = "any" then
      if user_cmp.length = 1 ∧ user_cmp.headD [] ∈ correct_cmp then
        { verdict := "correct", user_answer_norm := user_norm, canonical := canonical_display }
      else if user_cmp.length > 1 ∧ user_cmp.any (fun k => decide (k ∈ correct_cmp)) then
        { verdict := "almost", user_answer_norm := user_norm, canonical := canonical_display,
          note := "Choose ONE option" }
      else
        { verdict := "wrong", user_answer_norm := user_norm, canonical := canonical_display }
    else if order_sensitive then
      if user_cmp.length = correct_cmp.length ∧
          (user_cmp.zip correct_cmp).all (fun p => decide (p.1 = p.2)) then
        { verdict := "correct", user_answer_norm := user_norm, canonical := canonical_display }
      else
        { verdict := "wrong", user_answer_norm := user_norm, canonical := canonical_display }
    else
      if (∀ x ∈ user_cmp, x ∈ correct_cmp) ∧ (∀ x ∈ correct_cmp, x ∈ user_cmp) then
        { verdict := "correct", user_answer_norm := user_norm, canonical := canonical_display }
      else if user_cmp.any (fun k => decide (k ∈ correct_cmp)) then
        { verdict := "almost", user_answer_norm := user_norm, canonical := canonical_display,
          missing := some (correct_options.filter (fun opt => decide (norm_cmp_text opt ∉ user_cmp))),
          extra := some (selections.filter (fun opt => decide (norm_cmp_text opt ∉ correct_cmp))) }
      else
        { verdict := "wrong", user_answer_norm := user_norm, canonical := canonical_display }

end GrammarBot

namespace GrammarBot

/-! ## Claims C5, C6, C7 -/

theorem legacy_mcq_verdict (user canonical : List Char) (accepted_variants : List (List Char))
    (options : List (List Char)) :
    (_legacy_mcq_match user canonical accepted_variants options).verdict = "correct" ∨
      (_legacy_mcq_match user canonical accepted_variants options).verdict = "wrong" := by
  unfold _legacy_mcq_match
  by_cases hc : norm_cmp_text ((resolve_choice user options).getD user) ≠ [] ∧
      norm_cmp_text ((resolve_choice user options).getD user)
        ∈ freetextTargets (stripChars canonical) accepted_variants
  · rw [if_pos hc]
    exact Or.inl rfl
  · rw [if_neg hc]
    exact Or.inr rfl

/-- Claim C5: under policy `any` with a nonempty selection mapping, a
single mapped selection inside the correct set is `correct`; several
mapped selections overlapping the correct set are `almost` with the note
"Choose ONE option"; every other mapping is `wrong`. -/
theorem c5_option_any_cases (user canonical : List Char)
    (accepted_variants options correct_options : List (List Char))
    (order_sensitive explicit_correct_options : Bool)
    (hsel : _map_user_selections user options ≠ []) :
    (∀ s, _map_user_selections user options = [s] →
      norm_cmp_text s ∈ correct_options.map norm_cmp_text →
      (grade_option_item user canonical accepted_variants options "any" correct_options
        order_sensitive explicit_correct_options).verdict = "correct") ∧
    (1 < (_map_user_selections user options).length →
      ((_map_user_selections user options).map norm_cmp_text).any
        (fun k => decide (k ∈ correct_options.map norm_cmp_text)) = true →
      (grade_option_item user canonical accepted_variants options "any" correct_options
        order_sensitive explicit_correct_options).verdict = "almost" ∧
      (grade_option_item user canonical accepted_variants options "any" correct_options
        order_sensitive explicit_correct_options).note = "Choose ONE option") ∧
    ((¬ ∃ s, _map_user_selections user options = [s] ∧
        norm_cmp_text s ∈ correct_options.map norm_cmp_text) →
      ¬ (1 < (_map_user_selections user options).length ∧
        ((_map_user_selections user options).map norm_cmp_text).any
          (fun k => decide (k ∈ correct_options.map norm_cmp_text)) = true) →
      (grade_option_item user canonical accepted_variants options "any" correct_options
        order_sensitive explicit_correct_options).verdict = "wrong") := by
  unfold grade_option_item
  rw [if_neg hsel, if_pos rfl]
  refine ⟨?_, ?_, ?_⟩
  · intro s hs hmem
    rw [hs]
    rw [if_pos ⟨by rw [List.map_cons, List.map_nil]; rfl,
      by rw [List.map_cons, List.map_nil, List.headD_cons]; exact hmem⟩]
  · intro hlen hany
    have hc1 : ¬(((_map_user_selections user options).map norm_cmp_text).length = 1 ∧
        ((_map_user_selections user options).map norm_cmp_text).headD []
          ∈ correct_options.map norm_cmp_text) := by
      rintro ⟨h1, _⟩
      rw [List.length_map] at h1
      omega
    rw [if_neg hc1, if_pos ⟨by rwa [List.length_map], hany⟩]
    exact ⟨rfl, rfl⟩
  · intro hn1 hn2
    have hc1 : ¬(((_map_user_selections user options).map norm_cmp_text).length = 1 ∧
        ((_map_user_selections user options).map norm_cmp_text).headD []
          ∈ correct_options.map norm_cmp_text) := by
      rintro ⟨h1, h2⟩
      rw [List.length_map] at h1
      cases he : _map_user_selections user options with
      | nil => exact hsel he
      | cons a rest =>
        cases rest with
        | nil =>
          apply hn1
          rw [he] at h2
          rw [List.map_cons, List.map_nil, List.headD_cons] at h2
          exact ⟨a, he, h2⟩
        | cons b r2 =>
          rw [he, List.length_cons, List.length_cons] at h1
          omega
    have hc2 : ¬(1 < ((_map_user_selections user options).map norm_cmp_text).length ∧
        ((_map_user_selections user options).map norm_cmp_text).any
          (fun k => decide (k ∈ correct_options.map norm_cmp_text)) = true) := by
      rintro ⟨h1, h2⟩
      rw [List.length_map] at h1
      exact hn2 ⟨h1, h2⟩
    rw [if_neg hc1, if_neg hc2]

set_option maxRecDepth 100000 in
set_option maxHeartbeats 2000000 in
/-- Claim C5 witness: answering `A` with correct set `{red}` among
`red`/`blue` under `any` is graded `correct`. -/
theorem c5_witness :
    (grade_option_item ('A' :: []) [] [] (('r' :: 'e' :: ['d']) :: ('b' :: 'l' :: 'u' :: ['e']) :: [])
      "any" (('r' :: 'e' :: ['d']) :: []) false true).verdict = "correct" :=
  (c5_option_any_cases ('A' :: []) [] [] (('r' :: 'e' :: ['d']) :: ('b' :: 'l' :: 'u' :: ['e']) :: [])
      (('r' :: 'e' :: ['d']) :: []) false true (by decide)).1 ('r' :: 'e' :: ['d'])
    (by decide) (by decide)

set_option maxRecDepth 100000 in
set_option maxHeartbeats 4000000 in
/-- Claim C6 (code behavior at the failing input): the answer `A,B` whose
two mapped selections are both in the correct set is graded `almost` with
note "Choose ONE option", not `correct` as the claim (and the repository
test `test_any_of_multiple_selection_is_correct`) requires. -/
theorem c6_code_behavior :
    (grade_option_item ('A' :: ',' :: ['B']) [] []
        (('r' :: 'e' :: ['d']) :: ('b' :: 'l' :: 'u' :: ['e']) :: ('g' :: 'r' :: 'e' :: 'e' :: ['n']) :: [])
        "any" (('r' :: 'e' :: ['d']) :: ('b' :: 'l' :: 'u' :: ['e']) :: []) false true).verdict
        = "almost" ∧
      (grade_option_item ('A' :: ',' :: ['B']) [] []
        (('r' :: 'e' :: ['d']) :: ('b' :: 'l' :: 'u' :: ['e']) :: ('g' :: 'r' :: 'e' :: 'e' :: ['n']) :: [])
        "any" (('r' :: 'e' :: ['d']) :: ('b' :: 'l' :: 'u' :: ['e']) :: []) false true).note
        = "Choose ONE option" := by
  constructor
  · rfl
  · rfl

/-- Claim C7: `grade_option_item` returns `almost` only when the mapped
selections overlap the correct set (zero overlap never yields `almost`),
and under policy `all` with order sensitivity the verdict is never
`almost`. -/
theorem c7_almost_invariant (user canonical : List Char)
    (accepted_variants options correct_options : List (List Char)) (selection_policy : String)
    (order_sensitive explicit_correct_options : Bool) :
    ((grade_option_item user canonical accepted_variants options selection_policy correct_options
        order_sensitive explicit_correct_options).verdict = "almost" →
      ((_map_user_selections user options).map norm_cmp_text).any
        (fun k => decide (k ∈ correct_options.map norm_cmp_text)) = true) ∧
    (selection_policy = "all" → order_sensitive = true →
      (grade_option_item user canonical accepted_variants options selection_policy correct_options
        order_sensitive explicit_correct_options).verdict ≠ "almost") := by
  constructor
  · intro h
    unfold grade_option_item at h
    by_cases hs : _map_user_selections user options = []
    · rw [if_pos hs] at h
      by_cases hl : selection_policy = "any" ∧ explicit_correct_options = false
      · rw [if_pos hl] at h
        rcases legacy_mcq_verdict user canonical accepted_variants options with hv | hv <;>
          (rw [hv] at h; exact absurd h (by decide))
      · rw [if_neg hl] at h
        exact absurd (show ("wrong" : String) = "almost" from h) (by decide)
    · rw [if_neg hs] at h
      by_cases hp : selection_policy = "any"
      · rw [if_pos hp] at h
        by_cases hc1 : ((_map_user_selections user options).map norm_cmp_text).length = 1 ∧
            ((_map_user_selections user options).map norm_cmp_text).headD []
              ∈ correct_options.map norm_cmp_text
        · rw [if_pos hc1] at h
          exact absurd (show ("correct" : String) = "almost" from h) (by decide)
        · rw [if_neg hc1] at h
          by_cases hc2 : 1 < ((_map_user_selections user options).map norm_cmp_text).length ∧
              ((_map_user_selections user options).map norm_cmp_text).any
                (fun k => decide (k ∈ correct_options.map norm_cmp_text)) = true
          · exact hc2.2
          · rw [if_neg hc2] at h
            exact absurd (show ("wrong" : String) = "almost" from h) (by decide)
      · rw [if_neg hp] at h
        by_cases ho : order_sensitive = true
        · rw [if_pos ho] at h
          by_cases heq : ((_map_user_selections user options).map norm_cmp_text).length
                = (correct_options.map norm_cmp_text).length ∧
              (((_map_user_selections user options).map norm_cmp_text).zip
                (correct_options.map norm_cmp_text)).all (fun p => decide (p.1 = p.2)) = true
          · rw [if_pos heq] at h
            exact absurd (show ("correct" : String) = "almost" from h) (by decide)
          · rw [if_neg heq] at h
            exact absurd (show ("wrong" : String) = "almost" from h) (by decide)
        · rw [if_neg ho] at h
          by_cases hset : (∀ x ∈ (_map_user_selections user options).map norm_cmp_text,
                x ∈ correct_options.map norm_cmp_text) ∧
              (∀ x ∈ correct_options.map norm_cmp_text,
                x ∈ (_map_user_selections user options).map norm_cmp_text)
          · rw [if_pos hset] at h
            exact absurd (show ("correct" : String) = "almost" from h) (by decide)
          · rw [if_neg hset] at h
            by_cases hov : ((_map_user_selections user options).map norm_cmp_text).any
                (fun k => decide (k ∈ correct_options.map norm_cmp_text)) = true
            · exact hov
            · rw [if_neg hov] at h
              exact absurd (show ("wrong" : String) = "almost" from h) (by decide)
  · intro hpol hos h
    unfold grade_option_item at h
    by_cases hs : _map_user_selections user options = []
    · rw [if_pos hs] at h
      by_cases hl : selection_policy = "any" ∧ explicit_correct_options = false
      · rw [hpol] at hl
        exact absurd hl.1 (by decide)
      · rw [if_neg hl] at h
        exact absurd (show ("wrong" : String) = "almost" from h) (by decide)
    · rw [if_neg hs] at h
      have hp : ¬selection_policy = "any" := by
        rw [hpol]
        decide
      rw [if_neg hp, if_pos hos] at h
      by_cases heq : ((_map_user_selections user options).map norm_cmp_text).length
            = (correct_options.map norm_cmp_text).length ∧
          (((_map_user_selections user options).map norm_cmp_text).zip
            (correct_options.map norm_cmp_text)).all (fun p => decide (p.1 = p.2)) = true
      · rw [if_pos heq] at h
        exact absurd (show ("correct" : String) = "almost" from h) (by decide)
      · rw [if_neg heq] at h
        exact absurd (show ("wrong" : String) = "almost" from h) (by decide)

/-- Claim C7 witness: the theorem applied at a concrete input (policy
`all`, order-sensitive): the verdict is not `almost`. -/
theorem c7_witness :
    (grade_option_item ('A' :: []) [] [] (('r' :: 'e' :: ['d']) :: [])
      "all" (('r' :: 'e' :: ['d']) :: []) true true).verdict ≠ "almost" :=
  (c7_almost_invariant ('A' :: []) [] [] (('r' :: 'e' :: ['d']) :: [])
    (('r' :: 'e' :: ['d']) :: []) "all" true true).2 rfl rfl

end GrammarBot

namespace GrammarBot

/-! ## SHA-256 (model of `hashlib.sha256`, used for the selection seed) -/

/-- 32-bit truncation. -/
def m32 (n : Nat) : Nat := n % 4294967296

/-- 32-bit right rotation. -/
def rotr32 (k x : Nat) : Nat := m32 ((x >>> k) ||| (x <<< (32 - k)))

/-- The 64 SHA-256 round constants. -/
def sha256K : List Nat :=
  [1116352408, 1899447441, 3049323471, 3921009573, 961987163, 1508970993,
   2453635748, 2870763221, 3624381080, 310598401, 607225278, 1426881987,
   1925078388, 2162078206, 2614888103, 3248222580, 3835390401, 4022224774,
   264347078, 604807628, 770255983, 1249150122, 1555081692, 1996064986,
   2554220882, 2821834349, 2952996808, 3210313671, 3336571891, 3584528711,
   113926993, 338241895, 666307205, 773529912, 1294757372, 1396182291,
   1695183700, 1986661051, 2177026350, 2456956037, 2730485921, 2820302411,
   3259730800, 3345764771, 3516065817, 3600352804, 4094571909, 275423344,
   430227734, 506948616, 659060556, 883997877, 958139571, 1322822218,
   1537002063, 1747873779, 1955562222, 2024104815, 2227730452, 2361852424,
   2428436474, 2756734187, 3204031479, 3329325298]

/-- Big-endian bytes of an `n`-byte value. -/
def beBytes : Nat → Nat → List Nat
  | 0, _ => []
  | k + 1, v => (v >>> (8 * k)) % 256 :: beBytes k v

/-- SHA-256 padding: `0x80`, zeros to 56 mod 64, 8-byte big-endian bit
length. -/
def sha256Pad (msg : List Nat) : List Nat :=
  let padLen := (64 - ((msg.length + 9) % 64)) % 64
  msg ++ [0x80] ++ List.replicate padLen 0 ++ beBytes 8 (msg.length * 8)

/-- Split into 64-byte chunks; the fuel (the list length) makes the
recursion structural. -/
def chunks64Fuel : Nat → List Nat → List (List Nat)
  | 0, l => if l = [] then [] else [l]
  | fuel + 1, l => if l = [] then [] else (l.take 64) :: chunks64Fuel fuel (l.drop 64)

/-- Big-endian 32-bit words of a byte list. -/
def wordsOfBytes : List Nat → List Nat
  | b0 :: b1 :: b2 :: b3 :: rest => (((b0 * 256 + b1) * 256 + b2) * 256 + b3) :: wordsOfBytes rest
  | _ => []

/-- SHA-256 message-schedule extension to 64 words. -/
def sha256Extend : Nat → List Nat → List Nat
  | 0, w => w
  | k + 1, w =>
    let i := w.length
    let w15 := w.getD (i - 15) 0
    let w2 := w.getD (i - 2) 0
    let s0 := (rotr32 7 w15) ^^^ (rotr32 18 w15) ^^^ (w15 >>> 3)
    let s1 := (rotr32 17 w2) ^^^ (rotr32 19 w2) ^^^ (w2 >>> 10)
    sha256Extend k (w ++ [m32 (w.getD (i - 16) 0 + s0 + w.getD (i - 7) 0 + s1)])

/-- One SHA-256 compression round. -/
def sha256Round (st : List Nat) (kw : Nat × Nat) : List Nat :=
  match st with
  | [a, b, c, d, e, f, g, h] =>
    let s1 := (rotr32 6 e) ^^^ (rotr32 11 e) ^^^ (rotr32 25 e)
    let ch := (e &&& f) ^^^ ((4294967295 - e) &&& g)
    let temp1 := m32 (h + s1 + ch + kw.1 + kw.2)
    let s0 := (rotr32 2 a) ^^^ (rotr32 13 a) ^^^ (rotr32 22 a)
    let maj := (a &&& b) ^^^ (a &&& c) ^^^ (b &&& c)
    let temp2 := m32 (s0 + maj)
    [m32 (temp1 + temp2), a, b, c, m32 (d + temp1), e, f, g]
  | other => other

/-- SHA-256 compression of one 64-byte block into the running hash. -/
def sha256Block (hs : List Nat) (block : List Nat) : List Nat :=
  let w := sha256Extend 48 (wordsOfBytes block)
  let st := (w.zip sha256K).foldl sha256Round hs
  (hs.zip st).map (fun p => m32 (p.1 + p.2))

/-- SHA-256 digest (as a list of 32 bytes) of a byte list. -/
def sha256 (msg : List Nat) : List Nat :=
  let init := [1779033703, 3144134277, 1013904242, 2773480762,
               1359893119, 2600822924, 528734635, 1541459225]
  let hs := (chunks64Fuel (sha256Pad msg).length (sha256Pad msg)).foldl sha256Block init
  hs.flatMap (beBytes 4)

/-- UTF-8 encoding of a character list (`str.encode("utf-8")`). -/
def utf8Bytes (s : List Char) : List Nat :=
  s.flatMap (fun c =>
    let n := c.toNat
    if n < 0x80 then [n]
    else if n < 0x800 then [0xC0 ||| (n >>> 6), 0x80 ||| (n &&& 0x3F)]
    else if n < 0x10000 then
      [0xE0 ||| (n >>> 12), 0x80 ||| ((n >>> 6) &&& 0x3F), 0x80 ||| (n &&& 0x3F)]
    else
      [0xF0 ||| (n >>> 18), 0x80 ||| ((n >>> 12) &&& 0x3F),
       0x80 ||| ((n >>> 6) &&& 0x3F), 0x80 ||| (n &&& 0x3F)])

end GrammarBot

namespace GrammarBot

/-! ## Mersenne Twister (model of CPython's `random.Random`)

The 624-word generator state is packed little-endian into a single
natural number (word `i` occupies bits `32*i .. 32*i+31`). -/

/-- Read word `i` of the packed state. -/
def mtGet (s i : Nat) : Nat := (s >>> (32 * i)) % 4294967296

/-- Write word `i` of the packed state. -/
def mtSet (s i v : Nat) : Nat := s - (mtGet s i <<< (32 * i)) + (v <<< (32 * i))

/-- `init_genrand`: the linear seeding loop, building the 624 words. -/
def mtInitWords : Nat → List Nat → List Nat
  | 0, acc => acc.reverse
  | k + 1, acc =>
    let prev := acc.headD 0
    let i := acc.length
    mtInitWords k (m32 (1812433253 * (prev ^^^ (prev >>> 30)) + i) :: acc)

/-- Pack a little-endian word list into a single natural number. -/
def mtPack (ws : List Nat) : Nat :=
  ws.foldr (fun w acc => w + acc * 4294967296) 0

/-- `init_genrand(s)` from the Mersenne Twister reference code. -/
def initGenrand (s : Nat) : Nat :=
  mtPack (mtInitWords 623 [m32 s])

/-- First mixing loop of `init_by_array` (multiplier 1664525), folded over
the packed state with indices `i`, `j`. -/
def initByArrayLoop1 (key : List Nat) : Nat → Nat → Nat → Nat → Nat × Nat × Nat
  | 0, s, i, j => (s, i, j)
  | k + 1, s, i, j =>
    let prev := mtGet s (i - 1)
    let v := m32 ((mtGet s i ^^^ m32 ((prev ^^^ (prev >>> 30)) * 1664525)) + key.getD j 0 + j)
    let s := mtSet s i v
    let i := i + 1
    let j := j + 1
    let (s, i) := if 624 ≤ i then (mtSet s 0 (mtGet s 623), 1) else (s, i)
    let j := if key.length ≤ j then 0 else j
    initByArrayLoop1 key k s i j

/-- Second mixing loop of `init_by_array` (multiplier 1566083941). -/
def initByArrayLoop2 : Nat → Nat → Nat → Nat
  | 0, s, _ => s
  | k + 1, s, i =>
    let prev := mtGet s (i - 1)
    let v := m32 ((mtGet s i ^^^ m32 ((prev ^^^ (prev >>> 30)) * 1566083941)) + 4294967296 - i % 4294967296)
    let s := mtSet s i v
    let i := i + 1
    let (s, i) := if 624 ≤ i then (mtSet s 0 (mtGet s 623), 1) else (s, i)
    initByArrayLoop2 k s i

/-- `init_by_array(key)` from the Mersenne Twister reference code. -/
def initByArray (key : List Nat) : Nat :=
  let r1 := initByArrayLoop1 key (max 624 key.length) (initGenrand 19650218) 1 0
  mtSet (initByArrayLoop2 623 r1.1 r1.2.1) 0 0x80000000

/-- Little-endian 32-bit chunks of a nonnegative integer below `2^64`
(the selector's seeds are 64-bit), as used by CPython's `random_seed` to
build the `init_by_array` key. -/
def natToKey (n : Nat) : List Nat :=
  if n = 0 then [0]
  else if n < 4294967296 then [n]
  else [n % 4294967296, n / 4294967296]

/-- The generator twist: regenerate all 624 words (sequential in-place
update with modular indexing, exactly as the reference C loops). -/
def mtTwistLoop : Nat → Nat → Nat → Nat
  | 0, s, _ => s
  | k + 1, s, kk =>
    let y := (mtGet s kk &&& 0x80000000) + (mtGet s ((kk + 1) % 624) &&& 0x7fffffff)
    let v := mtGet s ((kk + 397) % 624) ^^^ (y >>> 1) ^^^ (if y % 2 = 1 then 0x9908b0df else 0)
    mtTwistLoop k (mtSet s kk v) (kk + 1)

/-- Generator state: packed words plus the output index `mti`. -/
structure MTState where
  words : Nat
  mti : Nat
deriving Repr

/-- `genrand_uint32`: twist when exhausted, then temper and emit. -/
def genrand (st : MTState) : Nat × MTState :=
  let st := if 624 ≤ st.mti then ⟨mtTwistLoop 624 st.words 0, 0⟩ else st
  let y0 := mtGet st.words st.mti
  let y1 := y0 ^^^ (y0 >>> 11)
  let y2 := y1 ^^^ ((y1 <<< 7) &&& 0x9d2c5680)
  let y3 := m32 (y2 ^^^ ((y2 <<< 15) &&& 0xefc60000))
  let y4 := y3 ^^^ (y3 >>> 18)
  (y4, ⟨st.words, st.mti + 1⟩)

/-- `random.Random(seed)` for a nonnegative integer seed. -/
def pyRandomInit (seed : Nat) : MTState :=
  ⟨initByArray (natToKey seed), 624⟩

/-- `getrandbits(k)` for `0 < k ≤ 32`. -/
def getrandbits (k : Nat) (st : MTState) : Nat × MTState :=
  let (y, st) := genrand st
  (y >>> (32 - k), st)

/-- `int.bit_length()` for values below `2^64` (a structural-fuel
formulation). -/
def bitLenAux : Nat → Nat → Nat
  | 0, _ => 0
  | fuel + 1, n => if n = 0 then 0 else bitLenAux fuel (n / 2) + 1

/-- `int.bit_length()`. -/
def pyBitLength (n : Nat) : Nat := bitLenAux 64 n

/-- `Random._randbelow(n)`: rejection sampling over `bit_length n` bits.
The fuel bounds the rejection loop (the reference implementation loops
until acceptance; acceptance happens within a few draws for every case
exercised here). -/
def randbelowFuel : Nat → Nat → MTState → Nat × MTState
  | 0, _, st => (0, st)
  | fuel + 1, n, st =>
    let k := pyBitLength n
    let (r, st) := getrandbits k st
    if r < n then (r, st) else randbelowFuel fuel n st

/-- Swap two positions of a list. -/
def listSwap (l : List Nat) (i j : Nat) : List Nat :=
  let a := l.getD i 0
  let b := l.getD j 0
  (l.set i b).set j a

/-- The Fisher–Yates loop of `random.shuffle`:
`for i in reversed(range(1, len(x))): j = _randbelow(i+1); swap`. -/
def shuffleLoop : Nat → List Nat → MTState → List Nat × MTState
  | 0, l, st => (l, st)
  | i + 1, l, st =>
    let (j, st) := randbelowFuel 64 (i + 2) st
    shuffleLoop i (listSwap l (i + 1) j) st

/-- `random.Random(seed).shuffle(l)`. -/
def pyShuffle (seed : Nat) (l : List Nat) : List Nat :=
  match l with
  | [] => []
  | _ => (shuffleLoop (l.length - 1) l (pyRandomInit seed)).1

end GrammarBot

namespace GrammarBot

/-! ## Due items, exercise selector, scheduler (`models.py`, `handlers.py`,
`due_flow.py`)

`due_at` is modelled as an integer timestamp in seconds (`timedelta(days=d)`
is `d * 86400`).  `cause_rule_keys_json` is modelled as the parsed JSON
payload: `none` for SQL NULL, otherwise the stored list of strings.  A row
created in this model carries `id := 0` standing for the
database-assigned autoincrement key; no claim depends on its value. -/

structure DueItem where
  id : Nat
  tg_user_id : Nat
  kind : String
  unit_key : String
  due_at : Int
  exercise_index : Nat
  item_in_exercise : Nat
  correct_in_exercise : Nat
  batch_num : Nat
  is_active : Bool
  cause_rule_keys_json : Option (List String)
deriving DecidableEq, Repr

/-- `_due_max_exercises` from `handlers.py`. -/
def _due_max_exercises (due : DueItem) : Option Nat :=
  if due.kind = "detour" then some 4
  else if due.kind = "revisit" then some 2
  else if due.kind = "check" then some 1
  else none

/-- The seed of `_select_real_exercises_for_due`: first 8 bytes
(big-endian) of `sha256("{id}:{unit_key}:{kind}")`. -/
def dueSeed (due : DueItem) : Nat :=
  let seed_input := utf8Bytes ((Nat.repr due.id).toList ++ ':' :: due.unit_key.toList
    ++ ':' :: due.kind.toList)
  ((sha256 seed_input).take 8).foldl (fun n b => n * 256 + b) 0

/-- `_select_real_exercises_for_due` from `handlers.py`: shuffle the
unit's candidate pool with a `random.Random` seeded by `dueSeed`, and
truncate.  The candidate pool (`unit_real_exercise_indices`, a database
read) is passed in as `candidates`. -/
def _select_real_exercises_for_due (candidates : List Nat) (due : DueItem)
    (max_exercises : Nat) : List Nat :=
  if max_exercises = 0 then []
  else if candidates = [] then []
  else
    let shuffled := pyShuffle (dueSeed due) candidates
    shuffled.take (min max_exercises candidates.length)

/-- The required-correct threshold of `_advance_due_detour_revisit`:
`min(2, items_length)` when the item count is known and positive, else
2. -/
def advanceRequired (items_length : Option Nat) : Nat :=
  match items_length with
  | some n => if 0 < n then min 2 n else 2
  | none => 2

/-- The wrap test of `_advance_due_detour_revisit`: the incremented item
position exceeds a known nonzero item count. -/
def advanceWrap (items_length : Option Nat) (item : Nat) : Bool :=
  match items_length with
  | some n => decide (0 < n ∧ n < item)
  | none => false

/-- The counter transition of `_advance_due_detour_revisit` from
`handlers.py`.  `items_length` is the item count of the current exercise
(`_due_items_length`, `none` when unknown). -/
def _advance_state (due : DueItem) (effective_correct : Bool)
    (items_length : Option Nat) : DueItem :=
  if effective_correct then
    if advanceRequired items_length ≤ due.correct_in_exercise + 1 then
      { due with
          exercise_index := due.exercise_index + 1
          item_in_exercise := 1
          correct_in_exercise := 0 }
    else if advanceWrap items_length
        ((if due.item_in_exercise = 0 then 1 else due.item_in_exercise) + 1) then
      { due with
          exercise_index := due.exercise_index + 1
          item_in_exercise := 1
          correct_in_exercise := 0 }
    else
      { due with
          item_in_exercise := (if due.item_in_exercise = 0 then 1 else due.item_in_exercise) + 1
          correct_in_exercise := due.correct_in_exercise + 1 }
  else
    { due with item_in_exercise := 1, correct_in_exercise := 0 }

/-- `_advance_due_detour_revisit` from `handlers.py`: the counter
transition plus the completion test against the selected-exercise list;
the boolean result is the "due item completed" flag. -/
def _advance_due_detour_revisit (pool : List Nat) (due : DueItem)
    (effective_correct : Bool) (items_length : Option Nat) : DueItem × Bool :=
  let due' := _advance_state due effective_correct items_length
  let max_exercises := (_due_max_exercises due').getD 0
  let selected := _select_real_exercises_for_due pool due' max_exercises
  if selected = [] then (due', true)
  else if selected.length < (if due'.exercise_index = 0 then 1 else due'.exercise_index) then
    (due', true)
  else (due', false)

/-- `_create_follow_due` from `handlers.py`: a completed `detour` spawns a
`revisit` due 2 days later, a completed `revisit` spawns a `check` due 7
days later, anything else spawns nothing. -/
def _create_follow_due (due : DueItem) (now : Int) : Option DueItem :=
  if due.kind = "detour" then
    some { id := 0, tg_user_id := due.tg_user_id, kind := "revisit", unit_key := due.unit_key,
           due_at := now + 2 * 86400, exercise_index := 1, item_in_exercise := 1,
           correct_in_exercise := 0, batch_num := 1, is_active := true,
           cause_rule_keys_json := due.cause_rule_keys_json }
  else if due.kind = "revisit" then
    some { id := 0, tg_user_id := due.tg_user_id, kind := "check", unit_key := due.unit_key,
           due_at := now + 7 * 86400, exercise_index := 1, item_in_exercise := 1,
           correct_in_exercise := 0, batch_num := 1, is_active := true,
           cause_rule_keys_json := due.cause_rule_keys_json }
  else none

/-- The grading-completion step of the handlers (`_auto_next_after_correct_due`
and the answer handler): advance the due item; on completion deactivate it
and create the follow-up due item. -/
def step_due_after_grade (pool : List Nat) (due : DueItem) (effective_correct : Bool)
    (items_length : Option Nat) (now : Int) : DueItem × Option DueItem :=
  let r := _advance_due_detour_revisit pool due effective_correct items_length
  if r.2 then
    let d := { r.1 with is_active := false }
    (d, _create_follow_due d now)
  else (r.1, none)

/-! ## Remediation trigger (`due_flow.py`) -/

/-- `_parse_rule_keys` from `due_flow.py`, on the parsed JSON payload:
`None` and malformed payloads give `[]`, and falsy (empty) entries are
dropped. -/
def _parse_rule_keys (o : Option (List String)) : List String :=
  match o with
  | none => []
  | some l => l.filter (fun k => k ≠ "")

/-- `_rule_keys_json` from `due_flow.py`: an empty list serializes to SQL
NULL. -/
def _rule_keys_json (l : List String) : Option (List String) :=
  if l = [] then none else some l

/-- The `seen`-set deduplication loop of `_merge_rule_keys`: keep the
first occurrence of every nonempty key. -/
def dedupKeys : List String → List String → List String
  | [], _ => []
  | k :: rest, seen =>
    if k ≠ "" ∧ k ∉ seen then k :: dedupKeys rest (k :: seen) else dedupKeys rest seen

/-- `_merge_rule_keys` from `due_flow.py`. -/
def _merge_rule_keys (existing : Option (List String)) (new_keys : List String) :
    Option (List String) :=
  let ex := _parse_rule_keys existing
  if ex = [] ∧ new_keys = [] then none
  else _rule_keys_json (dedupKeys (ex ++ new_keys) [])

/-- The row filter of `ensure_detours_for_units`' SELECT: same learner,
active, kind among the remediation ladder, given unit. -/
def ensureMatchB (tg : Nat) (unit_key : String) (r : DueItem) : Bool :=
  decide (r.tg_user_id = tg) && r.is_active &&
    (decide (r.kind = "detour") || decide (r.kind = "revisit") || decide (r.kind = "check")) &&
    decide (r.unit_key = unit_key)

/-- First index (with its row) satisfying a predicate; models
`existing_by_unit.setdefault` picking the first matching row per unit. -/
def findFirstIdx (p : DueItem → Bool) : List DueItem → Option (Nat × DueItem)
  | [] => none
  | r :: rest => if p r then some (0, r) else (findFirstIdx p rest).map (fun x => (x.1 + 1, x.2))

/-- First-occurrence deduplication of unit keys (the Python set
comprehension, whose order is then fixed by `sorted`). -/
def dedupStrings : List String → List String → List String
  | [], _ => []
  | k :: rest, seen =>
    if k ∉ seen then k :: dedupStrings rest (k :: seen) else dedupStrings rest seen

/-- Ordered insertion for `sortStrings`. -/
def insertSorted (x : String) : List String → List String
  | [] => [x]
  | y :: rest => if x ≤ y then x :: y :: rest else y :: insertSorted x rest

/-- `sorted(...)` over unit keys: lexicographic order (strings are totally
ordered, so any correct sort produces the `sorted` output). -/
def sortStrings (l : List String) : List String :=
  l.foldr insertSorted []

/-- The fresh `detour` row created by `ensure_detours_for_units`. -/
def newDetourRow (tg : Nat) (unit_key : String) (now : Int)
    (unit_cause_json : Option (List String)) : DueItem :=
  { id := 0, tg_user_id := tg, kind := "detour", unit_key := unit_key, due_at := now,
    exercise_index := 1, item_in_exercise := 1, correct_in_exercise := 0, batch_num := 1,
    is_active := true, cause_rule_keys_json := unit_cause_json }

/-- The in-place update of an existing active `detour`: pull `due_at` to
now when later, merge cause keys. -/
def mergeDetourRow (r : DueItem) (now : Int) (unit_cause_keys : List String) : DueItem :=
  { r with
      due_at := if now < r.due_at then now else r.due_at
      cause_rule_keys_json := _merge_rule_keys r.cause_rule_keys_json unit_cause_keys }

/-- The in-place escalation of an active `revisit`/`check` to a `detour`
with reset counters. -/
def escalateRow (r : DueItem) (now : Int) (unit_cause_keys : List String) : DueItem :=
  { r with
      kind := "detour"
      due_at := now
      exercise_index := 1
      item_in_exercise := 1
      correct_in_exercise := 0
      batch_num := 1
      is_active := true
      cause_rule_keys_json := _merge_rule_keys r.cause_rule_keys_json unit_cause_keys }

/-- `str.startswith` on the character lists. -/
def listStarts : List Char → List Char → Bool
  | _, [] => true
  | [], _ :: _ => false
  | c :: cs, p :: ps => decide (c = p) && listStarts cs ps

/-- The per-unit cause keys: incoming keys with the unit's own prefix, or
all incoming keys when none are unit-specific. -/
def unitCauseKeys (incoming : List String) (unit_key : String) : List String :=
  let specific := incoming.filter (fun k => listStarts k.toList (unit_key ++ "_").toList)
  if specific = [] then incoming else specific

/-- `ensure_detours_for_units` from `due_flow.py`, acting on the list of
all due-item rows (`table`).  Returns the updated table and the created
rows. -/
def ensure_detours_for_units (table : List DueItem) (tg : Nat) (unit_keys : List String)
    (cause_rule_keys_json : Option (List String)) (now : Int) :
    List DueItem × List DueItem :=
  if unit_keys = [] then (table, [])
  else
    let unique_units := sortStrings (dedupStrings (unit_keys.filter (fun u => u ≠ "")) [])
    let incoming_keys := _parse_rule_keys cause_rule_keys_json
    unique_units.foldl (fun acc unit_key =>
      let ukeys := unitCauseKeys incoming_keys unit_key
      match findFirstIdx (ensureMatchB tg unit_key) table with
      | none => (acc.1 ++ [newDetourRow tg unit_key now (_rule_keys_json ukeys)],
          acc.2 ++ [newDetourRow tg unit_key now (_rule_keys_json ukeys)])
      | some x =>
        if x.2.kind = "detour" then (acc.1.set x.1 (mergeDetourRow x.2 now ukeys), acc.2)
        else (acc.1.set x.1 (escalateRow x.2 now ukeys), acc.2)) (table, [])

end GrammarBot

namespace GrammarBot

/-! Staged kernel evaluation of the selector pipeline at two concrete due
items (ids 1 and 2, unit `u1`, kind `detour`) over the pool
`[1, 2, 3, 4, 5]`, for the divergence part of claim C8.  The intermediate
Mersenne-Twister states are spelled out as literals so that each `decide`
step stays within the kernel's reduction depth. -/

/-- The state after `init_genrand(19650218)`, shared by every seed. -/
def mtSeedBase : Nat :=
  62685089405509111925910797243914719854890513935494713084094713797279779630627496305943786046941309007281293105221577504421353501605599255248785149356818580886163074212016138319710181437623915839386196989339984175865611290932895638485827512283879634622589907034847096838980553398268338905605705315464924834076955485269257682765843392777664062904318116756644819538761883164862381873685805923051342196114892111881287659915424456096361326051748180740843339721465950121631833352165428366344241754810081140762710579390137795215443629123183303201044796731629341661542390258966032612552126580439913324626563213547393121217728067632048719897064596438939163041106934301355643192260261867872030533878188557727018817797219012064641958276099544136480610826250078810896212505254064619595899307426216931651016613164877613570296351724055264357110051005104450572173606849938075379012356137114572525910752676385589168436483206759652170097284388598518122222819376116616668668677988651997615236221431416155794821321118852088948452164682783715959922435191327367306488124638818446090532334864386359317233873012285172875896330714873881780586230596002778688422250420590175698633544778262136505069053046737202152515000629854634631225453245996997340762744567896897683212149150732909707719966588817675821630380251456266588599804209831660991462715440400663143017564651072677052296295930367391822676512661642282350234567553218318066651318510488484545671729568971887621684270732981974442582657502555066960418690332945218280990034155505553171409775830458482159957769211244505225186771766058316021949327301666418107251589707938065072144733816368743637495699897181007119363672460040974223449086641663004605507793014252452324150238463715514559124307431648478948480649031081489229583165223570218974125422263886587593014744330199975749832650568652404661542746543584685860761547297457070273167102314576665676644281998277713093924236551494770138725647883566971887853912300960949802636372591951717316415323846182747445131420005722224687602711525724505110953736568981699982016588947035894059736087136235396798804019434387781559696138411966704777989194870090051835909943079457649936020314680876367897457337488804889342331824364904005266943816631681518612047693872607083945336048154993001716858914072302230374294986610531277637599664647525761147514008899238689946802093944865612982597431648203028809043429562401771290925843222821220221381984318518256971016750121270624021542153515130386081256853244444367484914891752438843250797295149886721543902585582757118492217204960123203770309672216674331373413106027454841661967870247822106376003696537006476355273043676224973894002060133928765135363584693312631060562155459381152426642778209514491263275588735458188352331628933634618912177576995916817414488324819680108333628484452298807271017999262374749573133359090629722111402666396222385680310709557844049479865847370371052888681758484468279513921172987571336140289500145715018352119752770038578015899178947425013401300127437407370742417936980607757405410607208376626705322894782663757703548808362869195819947150150865798288136994832911439410269353230208345410503242199606186650417333579047848825834242257112060317620885151293421378661990197161958015730358249113963865616811805417654957899792836277351433146683316643158745577273742588847277405020330699298979666450169324546781433015633218213248018986767013905101885085728066131985273947793365444250280947765884488609302913437528001802423347517836456663978922564542901160075954132077499502061844004777463229898312792357201472450520034421742281215395838957029567457078867297742321364249618062920323524100796395855490398720473188748064226082130624085325443879193454095100721902723688608983702297802922465778395428510531587340343771240068168890882622394112252370643121994567113348850616779414952571984309063927162547038575769391208822294299053225776973195785292510157058775147687493667385905281728614066936870793483631104130486096422866739022254251631022238998824784309871214211336594149372534724828516536519652291847191320934127662041939033266344757810255450761243406685982638804631309022215852991706323223872506356963395668107287976200691035733250165615782065576159415303394415966535152327550107294310945533761757937224536792146711105700674959937207778503501562879445241463662142281185819506210181780721218897488871995890898495582077564387715740371190275817001449471008660140255770382875594805433223352833476546594040372715841292252983175468170554585838014797017976570586587751089146553833551413146641975370517778330202052282190648141351908509904289169596729111939424597802445523234111653813513351586367960175769546506050051493655326103823629699245586418016468660736051425039803522537493270385743437525903109563398688573456345292160567787373069854610200635728800730405759403691875432721043746233636765094325962472698626875833148826372580999341547042531665331710768365982359935219565301595187067772247975847412037958098451506998773182171027695752045356894447709388159633645629545493246019135820915900506906032640701290570506299065346661219735445730896769091171352761432210047450382980030625592142825700677633624952217795344145832513082782540989616413040988227257601039794195623143595351637462190706636535912449334420058581521218743569834717812580171279915160794789675762903718339466089866492140118823551337811927493524761760551434001520245324751568861558716803095718510972066599595072196209156923318071322517301806566620458899402166430591631348363311478802800521980525250372511467674969151489645720009661369785217086930227581405674315978920044798755483144811069077253851302610194739624245401270682864202663540116818822475326676741780611737275972111438408802370422377608919256570335384654037352344114105999356653180812503717835632673409647782213628400383443178293619326757139369589058612122088577237252104060778375287897543799460272211546791798613974575310224299012205778134871255296492395729078221387894808011355820153110205338707003138385845672884757408327786763143168159295742358655797897448897721796416755370

set_option maxRecDepth 1000000 in
theorem mtSeedBase_eq : initGenrand 19650218 = mtSeedBase := by
  decide

set_option maxRecDepth 1000000 in
theorem mtInitA_loop1 :
    initByArrayLoop1 [3366216292, 573498964] 624 mtSeedBase 1 0 = (83361422850819854743386286433994694577089792171069458473333036459021795339691299958834022727743561038245049235278015488164565852896888987677129151723140702387150412516883902412838371099723771755782505973275510549937554158635273621089451215825728017028645792922723977830707306895391124527932157602627889375080328212333310909704855271425271654668443252424183273686835234023735519798812307496268757475954585007668881162158516928473600575003955631461872209144959362229638091819254920638675944016723586436675868834414794299329257054605441824394421715976818699532485193022113445560623738391644245234459973061847154100658883045855981806450983295716807661170004513745945624388910702583540465033403064916732091704315845637592465782950850660431738890515134881359915293518106017235343423599367724262030709366985712650375236181252892238503110111559331244077608890112360713643129878974271838852918013759817441995235630558029086394429288239306409930237697819774322608425394958764199295405648403951558484296470525552534506707336387977212586039038745856603752127622033943389158997671911530877605072938603960032144181414930659835043734706054600792876870440722455539470048697501838130917568990875524654379914573948191728684628253631733721312843222925671254376448151910421541320418991395258866731626254623359179990393252903601472465750188583215728464165369756205523694750833330646070093260770545545130236782342080589519927767097716528449728428543227168699254540425640464682165261062335083920070922074397229202084044249457353357605910330864265569255015014933019051767409237553296259383204552765219884524295193379997305747003074464397151233452710601147482762508004188371456017451413447873145383456399680396267900852945547625950876991753065668060502611323896868380714244590282427117506142110714497201387649971079416508556388963785546212261845329564079424703127023038521463450103897073509396696161380944281408528129505540940498472824175167529634122882008686157510034137246653664089219250079155290040066939593455139259333517535493842318155829734936932355438850191039550417582478402744024495281697647743397225893656250895185877633149158816067164008827927262741292073583141046588696262873580794491149328633638032202074449991953431105121339914468154399697119053925377322395304307696543904137860975791354612692179291689767229766243241774319694267042102192141333130487466397159639046171975130449895644619840591982151864714932882442006863952572997196360071900103546682664209634850095397445431537808447151053916780492270354864566460096670791854717170760442595647562156669179095086235909210582344900359255593582608386980105812573813164336178332011726186590265507045883318559063803034473134386448111227537243778637485106631877439861388902066784483469022320844010055810084648043699610270791462437905774372845282335021278454595609704026213158331982633767951068830693223343173531549077160705508037415344643678389333431877123176861261161565177222778560135867598841810866875109772194215662069649212134294483196084266746684639647119073482146344196143227392145722276877447011575275981119716061134397433339151814350361224990594440448442823105554539350471861032454311932756089514333413041516975658980888596193284684595709392571660068411219597412134568845533386354106790099943978203003034829299069614092086376245204681993599900905949300972377849918688299739409707233867841382139210289922112816256971448007552609734895841228697126047210328259099661438461515063719087386778729162902458395017287675016884119261961402395724867894982279314340802141986312209743247974327667522067265899283675176088078055420343059087001623825143361128554794619952810580375740193958044680341629806610762174322730027119001041352003820176941750415964609786672918457120330004573406875388668684710423165659789040171653107228634007515464861540125321846880195131350128411925801522002038543108269840337574122700022576344287365166712756528106877832089935701170984183885073406578131143459068153729388582207568199742344625024576315909139287555470616145081848429072684067670649123271979418366151740356257710283773791784637056829297028912796302143221971579876881093289891744382180544154582631289170041936929916508375144021629347353332173740344443010219335090573492777634311169026458697105804660766912127750222606825444337465321264078959755015838601830841821964687961531596322198738899810224761448661827095489054264760736353802734690637929219431179097909690100182545804680216229861514668785107485072474963470495210964735491249819884961615282584771906574293860334065992527980070404682643392747817379269274922849640474878954338264891058952664199614274095625777300237477025898529042863726687248087182137312460293999229412121756373362333592143828665249928353937408367638369442940873784084792845977912258807668311616315560454003952751397034029953750668691532325688736471355716300210058704123333078098717577748086287227156021421924637477240379004247601339739491611010615362073429879921004669181461350599152958885380094754994341851790187363543494093844330347079859707493398661314606200272071864749802537989522224293421254346502471617707682766693274324066322843306582907977789068710926485076974195420253277374469689275605818693385722011168406200082604444127373280734868697081200550121747025463964688780852080307243858259362301856669754517948176355227253149543295774740305674690979687050591022760745550976404565573147901751059499983539862412325078272611945543864094482782471095524101091299381694731337688353332251007763225545184543318673893807895512677235068278366465251383533792181314036964236376612465945403666350703537518911497468301181343659093292654327650817243150166992850412180757754940238620686564509747992965783377859346829752888438360341264169084956961235598901943813594389402652730780283727054138340925792431785961890369143091125476373509296730043972444066354017372359697044431602549341554400743660760185093047302370769120785275154213130178378364529098414378211940050627964707058193220985944695599773657934073191728260898857310728569239234550813961790030533931854772813192208410179105394634, 2, 0) := by
  decide

set_option maxRecDepth 1000000 in
theorem mtInitA_loop2 :
    initByArrayLoop2 623 83361422850819854743386286433994694577089792171069458473333036459021795339691299958834022727743561038245049235278015488164565852896888987677129151723140702387150412516883902412838371099723771755782505973275510549937554158635273621089451215825728017028645792922723977830707306895391124527932157602627889375080328212333310909704855271425271654668443252424183273686835234023735519798812307496268757475954585007668881162158516928473600575003955631461872209144959362229638091819254920638675944016723586436675868834414794299329257054605441824394421715976818699532485193022113445560623738391644245234459973061847154100658883045855981806450983295716807661170004513745945624388910702583540465033403064916732091704315845637592465782950850660431738890515134881359915293518106017235343423599367724262030709366985712650375236181252892238503110111559331244077608890112360713643129878974271838852918013759817441995235630558029086394429288239306409930237697819774322608425394958764199295405648403951558484296470525552534506707336387977212586039038745856603752127622033943389158997671911530877605072938603960032144181414930659835043734706054600792876870440722455539470048697501838130917568990875524654379914573948191728684628253631733721312843222925671254376448151910421541320418991395258866731626254623359179990393252903601472465750188583215728464165369756205523694750833330646070093260770545545130236782342080589519927767097716528449728428543227168699254540425640464682165261062335083920070922074397229202084044249457353357605910330864265569255015014933019051767409237553296259383204552765219884524295193379997305747003074464397151233452710601147482762508004188371456017451413447873145383456399680396267900852945547625950876991753065668060502611323896868380714244590282427117506142110714497201387649971079416508556388963785546212261845329564079424703127023038521463450103897073509396696161380944281408528129505540940498472824175167529634122882008686157510034137246653664089219250079155290040066939593455139259333517535493842318155829734936932355438850191039550417582478402744024495281697647743397225893656250895185877633149158816067164008827927262741292073583141046588696262873580794491149328633638032202074449991953431105121339914468154399697119053925377322395304307696543904137860975791354612692179291689767229766243241774319694267042102192141333130487466397159639046171975130449895644619840591982151864714932882442006863952572997196360071900103546682664209634850095397445431537808447151053916780492270354864566460096670791854717170760442595647562156669179095086235909210582344900359255593582608386980105812573813164336178332011726186590265507045883318559063803034473134386448111227537243778637485106631877439861388902066784483469022320844010055810084648043699610270791462437905774372845282335021278454595609704026213158331982633767951068830693223343173531549077160705508037415344643678389333431877123176861261161565177222778560135867598841810866875109772194215662069649212134294483196084266746684639647119073482146344196143227392145722276877447011575275981119716061134397433339151814350361224990594440448442823105554539350471861032454311932756089514333413041516975658980888596193284684595709392571660068411219597412134568845533386354106790099943978203003034829299069614092086376245204681993599900905949300972377849918688299739409707233867841382139210289922112816256971448007552609734895841228697126047210328259099661438461515063719087386778729162902458395017287675016884119261961402395724867894982279314340802141986312209743247974327667522067265899283675176088078055420343059087001623825143361128554794619952810580375740193958044680341629806610762174322730027119001041352003820176941750415964609786672918457120330004573406875388668684710423165659789040171653107228634007515464861540125321846880195131350128411925801522002038543108269840337574122700022576344287365166712756528106877832089935701170984183885073406578131143459068153729388582207568199742344625024576315909139287555470616145081848429072684067670649123271979418366151740356257710283773791784637056829297028912796302143221971579876881093289891744382180544154582631289170041936929916508375144021629347353332173740344443010219335090573492777634311169026458697105804660766912127750222606825444337465321264078959755015838601830841821964687961531596322198738899810224761448661827095489054264760736353802734690637929219431179097909690100182545804680216229861514668785107485072474963470495210964735491249819884961615282584771906574293860334065992527980070404682643392747817379269274922849640474878954338264891058952664199614274095625777300237477025898529042863726687248087182137312460293999229412121756373362333592143828665249928353937408367638369442940873784084792845977912258807668311616315560454003952751397034029953750668691532325688736471355716300210058704123333078098717577748086287227156021421924637477240379004247601339739491611010615362073429879921004669181461350599152958885380094754994341851790187363543494093844330347079859707493398661314606200272071864749802537989522224293421254346502471617707682766693274324066322843306582907977789068710926485076974195420253277374469689275605818693385722011168406200082604444127373280734868697081200550121747025463964688780852080307243858259362301856669754517948176355227253149543295774740305674690979687050591022760745550976404565573147901751059499983539862412325078272611945543864094482782471095524101091299381694731337688353332251007763225545184543318673893807895512677235068278366465251383533792181314036964236376612465945403666350703537518911497468301181343659093292654327650817243150166992850412180757754940238620686564509747992965783377859346829752888438360341264169084956961235598901943813594389402652730780283727054138340925792431785961890369143091125476373509296730043972444066354017372359697044431602549341554400743660760185093047302370769120785275154213130178378364529098414378211940050627964707058193220985944695599773657934073191728260898857310728569239234550813961790030533931854772813192208410179105394634 2 = 22468015540367277839841790586818609904020754136269034014945362391419915870760037034194385714531911771963964308330832762088824130448616362538327030104016954374346266636349988371029202767302888972369345627866664973216484776661069325791956297769843129601725887151905176351008369310579719482685430849785482169374212713833768356449238390369954974434296706595924520190097117315834603786503574842334340472497293276535241603950907879676628860908270715347549028865561307513569445206738390198442802915860857046541835759279393299470281092797259796511130150777488523340419185980942784730550185348950797820686477079388040592195017012211832980108106471958586976308064948381205643453324690144491286341965648724526034444257196698630289099878534493895930447610894317332143165979182602205968340781772688748276413561601838275579866023626532870961573065067168526879282806896109124062278383196475123616193483098637408560512182282007903554069722149611172977492032931189378190855244647712868172230784445262461843307343470984022132224532341561030066866116672493685852232290621549783538373838089965295019806218309373574467739623189725633235406270043159408307750331770713300412792211607751783018643096010343719956183550472934841927764269783994472441255552189482412195476089046373866973301309828299672945485809386840734306659637700414801276858520230159334239530047129868231796343057042692461876756634469240964294775739703308091748304240812688961240571619377175947714284547211805660963355076442150569198024137489693250615439718768673400864806265360126303681729711749988451657990907760189015333453447053387517066070390270642691387144959901601455702297342801449810479860396062765186158615109498527714168981601401194889746938172313052239783394463659880284173469746239725559121528572063830636204532395163330853116817679210103049620929179731095814481774622408148649373007313136859790312040112119623738984831586211868926109161003353307608790456797366277583620495974232620781441219543803867336421475217224280216748711596712206933860659940054435525264779152949877035025545245580655295522387286745336815428914783461808810880965765599854595097303668819132808047657494430782378678909017891937278020408439672261553765414702667821725834087978179992902764132252146667860123770121245636155524994061659681285647611586845338906349282827202778535171681910196283840672037681216581928795091221359131040870078078113406735722233844056536723028040215383769553637022647418838284108824931424172720155760569698098703415503162944225507217667549083856470289864680208696554789054062619229606623782539135550168456744685312868312793277102590207927926129130176019650388501238043732126319643821474184231116742906654454968402364065492829829375606797068146035251783444802619335136297231689969938284784530714392359692627026286335477465541580557553507539439728876675400027517947508340747778053117144895244402019061507203434574393582551807996308386654262602997299933351865611043929559169352587008891418764671641368047148999110401792553464547982580489862840483931290676291255021904518995115287494038222275096236927541216398156299160908243123496330475737228150983120368632567572226690252914857926124868078999685700142599033414934588556576803388620652687077870464422211212193999196565057448642546834787450489330496111905145653629345603395894007450916072265460918593763353030069848903220851089265425410656800424958494275138668220959008072463604723669704860536959531907115734825713854249158441634129308808356021555423977367025178856160820603854900705784700091576173033613336190233199751755754858782678576588580276086258015787108229621602227031216713354910451198039461971452991654736682206168868895843308076707536168158713082687201040755803728524085444328299093039229641034923610148443354587265257656923507431399684325183473586623210846580481015349722625593391843918965893496796578667158987628937307172431361170440291199432928605020887426767113681853783807528061444034403880635487441123440729745467025365557716857048958658134698384221967352040565740811844175195682973380380065126055461925529440093474349332464975998477948805624548398517352870348853618944356775876369537832940537362847942371111596476800236687033858453546650242537563953889779790575613514332691840026834942089283447702660691478955331234553973949477219000710282398348738239884499049621349625127707459159985164096999554965313033397890591709558001202661919527645499821382538728387179517660607205757545520003535553653776609893665795913271877212901625423694897900477219855798344985269170196461791510386562541718847624664703753768807842988316513757668578080538491211398168000291355299173765707076255163556244956991914032169175067043403959369334539766628209602086077302627597196747672298796345668047498361318567000632721837752780701944793615327689668323114454179172989610568916256319618106190303443328703351709358779515402918190671083462544785186554906850587533279659965075778816016372918388971906254599586760065608534020715945989767979258406281793971976150569821914375021992100053942627659540466768961390455123451489081472189916946054446539537189291272171566453024383570537168350043570501709673493159588714499870954752494729399498897010464540338469766562196210518016951157743835356969078336524902355005843552203477523836485982562597431723588464782528821673233966152449621766171176372221710969664620060402918032124721191897209757737294489968708191921199121464870842911798397569589496792711173441786269217583516807812197726568783692189465174380219586352881776322257218202737853987953178242907432285250172034799152213128644585695511122037713296593946693676755391782171985288495860603633695525537793319328319720738058659872524203916093550680889975002279711056741590052639127324476906666910711317654690291696419511346922387196150601444648742823668924287682142955181529420491541999403762596300263216997907148356125001303284185043195589566902774683915081338905422448957708140635629742045358880744245337543232869007198543809690823856665247159157679769652847480481190782099163218222820508232279536539529736683000400901557134436650499 := by
  decide

set_option maxRecDepth 1000000 in
theorem mtInitA : initByArray (natToKey 2463159298036097636) = 22468015540367277839841790586818609904020754136269034014945362391419915870760037034194385714531911771963964308330832762088824130448616362538327030104016954374346266636349988371029202767302888972369345627866664973216484776661069325791956297769843129601725887151905176351008369310579719482685430849785482169374212713833768356449238390369954974434296706595924520190097117315834603786503574842334340472497293276535241603950907879676628860908270715347549028865561307513569445206738390198442802915860857046541835759279393299470281092797259796511130150777488523340419185980942784730550185348950797820686477079388040592195017012211832980108106471958586976308064948381205643453324690144491286341965648724526034444257196698630289099878534493895930447610894317332143165979182602205968340781772688748276413561601838275579866023626532870961573065067168526879282806896109124062278383196475123616193483098637408560512182282007903554069722149611172977492032931189378190855244647712868172230784445262461843307343470984022132224532341561030066866116672493685852232290621549783538373838089965295019806218309373574467739623189725633235406270043159408307750331770713300412792211607751783018643096010343719956183550472934841927764269783994472441255552189482412195476089046373866973301309828299672945485809386840734306659637700414801276858520230159334239530047129868231796343057042692461876756634469240964294775739703308091748304240812688961240571619377175947714284547211805660963355076442150569198024137489693250615439718768673400864806265360126303681729711749988451657990907760189015333453447053387517066070390270642691387144959901601455702297342801449810479860396062765186158615109498527714168981601401194889746938172313052239783394463659880284173469746239725559121528572063830636204532395163330853116817679210103049620929179731095814481774622408148649373007313136859790312040112119623738984831586211868926109161003353307608790456797366277583620495974232620781441219543803867336421475217224280216748711596712206933860659940054435525264779152949877035025545245580655295522387286745336815428914783461808810880965765599854595097303668819132808047657494430782378678909017891937278020408439672261553765414702667821725834087978179992902764132252146667860123770121245636155524994061659681285647611586845338906349282827202778535171681910196283840672037681216581928795091221359131040870078078113406735722233844056536723028040215383769553637022647418838284108824931424172720155760569698098703415503162944225507217667549083856470289864680208696554789054062619229606623782539135550168456744685312868312793277102590207927926129130176019650388501238043732126319643821474184231116742906654454968402364065492829829375606797068146035251783444802619335136297231689969938284784530714392359692627026286335477465541580557553507539439728876675400027517947508340747778053117144895244402019061507203434574393582551807996308386654262602997299933351865611043929559169352587008891418764671641368047148999110401792553464547982580489862840483931290676291255021904518995115287494038222275096236927541216398156299160908243123496330475737228150983120368632567572226690252914857926124868078999685700142599033414934588556576803388620652687077870464422211212193999196565057448642546834787450489330496111905145653629345603395894007450916072265460918593763353030069848903220851089265425410656800424958494275138668220959008072463604723669704860536959531907115734825713854249158441634129308808356021555423977367025178856160820603854900705784700091576173033613336190233199751755754858782678576588580276086258015787108229621602227031216713354910451198039461971452991654736682206168868895843308076707536168158713082687201040755803728524085444328299093039229641034923610148443354587265257656923507431399684325183473586623210846580481015349722625593391843918965893496796578667158987628937307172431361170440291199432928605020887426767113681853783807528061444034403880635487441123440729745467025365557716857048958658134698384221967352040565740811844175195682973380380065126055461925529440093474349332464975998477948805624548398517352870348853618944356775876369537832940537362847942371111596476800236687033858453546650242537563953889779790575613514332691840026834942089283447702660691478955331234553973949477219000710282398348738239884499049621349625127707459159985164096999554965313033397890591709558001202661919527645499821382538728387179517660607205757545520003535553653776609893665795913271877212901625423694897900477219855798344985269170196461791510386562541718847624664703753768807842988316513757668578080538491211398168000291355299173765707076255163556244956991914032169175067043403959369334539766628209602086077302627597196747672298796345668047498361318567000632721837752780701944793615327689668323114454179172989610568916256319618106190303443328703351709358779515402918190671083462544785186554906850587533279659965075778816016372918388971906254599586760065608534020715945989767979258406281793971976150569821914375021992100053942627659540466768961390455123451489081472189916946054446539537189291272171566453024383570537168350043570501709673493159588714499870954752494729399498897010464540338469766562196210518016951157743835356969078336524902355005843552203477523836485982562597431723588464782528821673233966152449621766171176372221710969664620060402918032124721191897209757737294489968708191921199121464870842911798397569589496792711173441786269217583516807812197726568783692189465174380219586352881776322257218202737853987953178242907432285250172034799152213128644585695511122037713296593946693676755391782171985288495860603633695525537793319328319720738058659872524203916093550680889975002279711056741590052639127324476906666910711317654690291696419511346922387196150601444648742823668924287682142955181529420491541999403762596300263216997907148356125001303284185043195589566902774683915081338905422448957708140635629742045358880744245337543232869007198543809690823856665247159157679769652847480481190782099163218222820508232279536539529736683000400901557135542845440 := by
  unfold initByArray
  rw [show natToKey 2463159298036097636 = [3366216292, 573498964] from by decide]
  rw [show (max 624 (List.length [3366216292, 573498964])) = 624 from by decide]
  rw [mtSeedBase_eq, mtInitA_loop1]
  show mtSet (initByArrayLoop2 623 83361422850819854743386286433994694577089792171069458473333036459021795339691299958834022727743561038245049235278015488164565852896888987677129151723140702387150412516883902412838371099723771755782505973275510549937554158635273621089451215825728017028645792922723977830707306895391124527932157602627889375080328212333310909704855271425271654668443252424183273686835234023735519798812307496268757475954585007668881162158516928473600575003955631461872209144959362229638091819254920638675944016723586436675868834414794299329257054605441824394421715976818699532485193022113445560623738391644245234459973061847154100658883045855981806450983295716807661170004513745945624388910702583540465033403064916732091704315845637592465782950850660431738890515134881359915293518106017235343423599367724262030709366985712650375236181252892238503110111559331244077608890112360713643129878974271838852918013759817441995235630558029086394429288239306409930237697819774322608425394958764199295405648403951558484296470525552534506707336387977212586039038745856603752127622033943389158997671911530877605072938603960032144181414930659835043734706054600792876870440722455539470048697501838130917568990875524654379914573948191728684628253631733721312843222925671254376448151910421541320418991395258866731626254623359179990393252903601472465750188583215728464165369756205523694750833330646070093260770545545130236782342080589519927767097716528449728428543227168699254540425640464682165261062335083920070922074397229202084044249457353357605910330864265569255015014933019051767409237553296259383204552765219884524295193379997305747003074464397151233452710601147482762508004188371456017451413447873145383456399680396267900852945547625950876991753065668060502611323896868380714244590282427117506142110714497201387649971079416508556388963785546212261845329564079424703127023038521463450103897073509396696161380944281408528129505540940498472824175167529634122882008686157510034137246653664089219250079155290040066939593455139259333517535493842318155829734936932355438850191039550417582478402744024495281697647743397225893656250895185877633149158816067164008827927262741292073583141046588696262873580794491149328633638032202074449991953431105121339914468154399697119053925377322395304307696543904137860975791354612692179291689767229766243241774319694267042102192141333130487466397159639046171975130449895644619840591982151864714932882442006863952572997196360071900103546682664209634850095397445431537808447151053916780492270354864566460096670791854717170760442595647562156669179095086235909210582344900359255593582608386980105812573813164336178332011726186590265507045883318559063803034473134386448111227537243778637485106631877439861388902066784483469022320844010055810084648043699610270791462437905774372845282335021278454595609704026213158331982633767951068830693223343173531549077160705508037415344643678389333431877123176861261161565177222778560135867598841810866875109772194215662069649212134294483196084266746684639647119073482146344196143227392145722276877447011575275981119716061134397433339151814350361224990594440448442823105554539350471861032454311932756089514333413041516975658980888596193284684595709392571660068411219597412134568845533386354106790099943978203003034829299069614092086376245204681993599900905949300972377849918688299739409707233867841382139210289922112816256971448007552609734895841228697126047210328259099661438461515063719087386778729162902458395017287675016884119261961402395724867894982279314340802141986312209743247974327667522067265899283675176088078055420343059087001623825143361128554794619952810580375740193958044680341629806610762174322730027119001041352003820176941750415964609786672918457120330004573406875388668684710423165659789040171653107228634007515464861540125321846880195131350128411925801522002038543108269840337574122700022576344287365166712756528106877832089935701170984183885073406578131143459068153729388582207568199742344625024576315909139287555470616145081848429072684067670649123271979418366151740356257710283773791784637056829297028912796302143221971579876881093289891744382180544154582631289170041936929916508375144021629347353332173740344443010219335090573492777634311169026458697105804660766912127750222606825444337465321264078959755015838601830841821964687961531596322198738899810224761448661827095489054264760736353802734690637929219431179097909690100182545804680216229861514668785107485072474963470495210964735491249819884961615282584771906574293860334065992527980070404682643392747817379269274922849640474878954338264891058952664199614274095625777300237477025898529042863726687248087182137312460293999229412121756373362333592143828665249928353937408367638369442940873784084792845977912258807668311616315560454003952751397034029953750668691532325688736471355716300210058704123333078098717577748086287227156021421924637477240379004247601339739491611010615362073429879921004669181461350599152958885380094754994341851790187363543494093844330347079859707493398661314606200272071864749802537989522224293421254346502471617707682766693274324066322843306582907977789068710926485076974195420253277374469689275605818693385722011168406200082604444127373280734868697081200550121747025463964688780852080307243858259362301856669754517948176355227253149543295774740305674690979687050591022760745550976404565573147901751059499983539862412325078272611945543864094482782471095524101091299381694731337688353332251007763225545184543318673893807895512677235068278366465251383533792181314036964236376612465945403666350703537518911497468301181343659093292654327650817243150166992850412180757754940238620686564509747992965783377859346829752888438360341264169084956961235598901943813594389402652730780283727054138340925792431785961890369143091125476373509296730043972444066354017372359697044431602549341554400743660760185093047302370769120785275154213130178378364529098414378211940050627964707058193220985944695599773657934073191728260898857310728569239234550813961790030533931854772813192208410179105394634 2) 0 2147483648 = 22468015540367277839841790586818609904020754136269034014945362391419915870760037034194385714531911771963964308330832762088824130448616362538327030104016954374346266636349988371029202767302888972369345627866664973216484776661069325791956297769843129601725887151905176351008369310579719482685430849785482169374212713833768356449238390369954974434296706595924520190097117315834603786503574842334340472497293276535241603950907879676628860908270715347549028865561307513569445206738390198442802915860857046541835759279393299470281092797259796511130150777488523340419185980942784730550185348950797820686477079388040592195017012211832980108106471958586976308064948381205643453324690144491286341965648724526034444257196698630289099878534493895930447610894317332143165979182602205968340781772688748276413561601838275579866023626532870961573065067168526879282806896109124062278383196475123616193483098637408560512182282007903554069722149611172977492032931189378190855244647712868172230784445262461843307343470984022132224532341561030066866116672493685852232290621549783538373838089965295019806218309373574467739623189725633235406270043159408307750331770713300412792211607751783018643096010343719956183550472934841927764269783994472441255552189482412195476089046373866973301309828299672945485809386840734306659637700414801276858520230159334239530047129868231796343057042692461876756634469240964294775739703308091748304240812688961240571619377175947714284547211805660963355076442150569198024137489693250615439718768673400864806265360126303681729711749988451657990907760189015333453447053387517066070390270642691387144959901601455702297342801449810479860396062765186158615109498527714168981601401194889746938172313052239783394463659880284173469746239725559121528572063830636204532395163330853116817679210103049620929179731095814481774622408148649373007313136859790312040112119623738984831586211868926109161003353307608790456797366277583620495974232620781441219543803867336421475217224280216748711596712206933860659940054435525264779152949877035025545245580655295522387286745336815428914783461808810880965765599854595097303668819132808047657494430782378678909017891937278020408439672261553765414702667821725834087978179992902764132252146667860123770121245636155524994061659681285647611586845338906349282827202778535171681910196283840672037681216581928795091221359131040870078078113406735722233844056536723028040215383769553637022647418838284108824931424172720155760569698098703415503162944225507217667549083856470289864680208696554789054062619229606623782539135550168456744685312868312793277102590207927926129130176019650388501238043732126319643821474184231116742906654454968402364065492829829375606797068146035251783444802619335136297231689969938284784530714392359692627026286335477465541580557553507539439728876675400027517947508340747778053117144895244402019061507203434574393582551807996308386654262602997299933351865611043929559169352587008891418764671641368047148999110401792553464547982580489862840483931290676291255021904518995115287494038222275096236927541216398156299160908243123496330475737228150983120368632567572226690252914857926124868078999685700142599033414934588556576803388620652687077870464422211212193999196565057448642546834787450489330496111905145653629345603395894007450916072265460918593763353030069848903220851089265425410656800424958494275138668220959008072463604723669704860536959531907115734825713854249158441634129308808356021555423977367025178856160820603854900705784700091576173033613336190233199751755754858782678576588580276086258015787108229621602227031216713354910451198039461971452991654736682206168868895843308076707536168158713082687201040755803728524085444328299093039229641034923610148443354587265257656923507431399684325183473586623210846580481015349722625593391843918965893496796578667158987628937307172431361170440291199432928605020887426767113681853783807528061444034403880635487441123440729745467025365557716857048958658134698384221967352040565740811844175195682973380380065126055461925529440093474349332464975998477948805624548398517352870348853618944356775876369537832940537362847942371111596476800236687033858453546650242537563953889779790575613514332691840026834942089283447702660691478955331234553973949477219000710282398348738239884499049621349625127707459159985164096999554965313033397890591709558001202661919527645499821382538728387179517660607205757545520003535553653776609893665795913271877212901625423694897900477219855798344985269170196461791510386562541718847624664703753768807842988316513757668578080538491211398168000291355299173765707076255163556244956991914032169175067043403959369334539766628209602086077302627597196747672298796345668047498361318567000632721837752780701944793615327689668323114454179172989610568916256319618106190303443328703351709358779515402918190671083462544785186554906850587533279659965075778816016372918388971906254599586760065608534020715945989767979258406281793971976150569821914375021992100053942627659540466768961390455123451489081472189916946054446539537189291272171566453024383570537168350043570501709673493159588714499870954752494729399498897010464540338469766562196210518016951157743835356969078336524902355005843552203477523836485982562597431723588464782528821673233966152449621766171176372221710969664620060402918032124721191897209757737294489968708191921199121464870842911798397569589496792711173441786269217583516807812197726568783692189465174380219586352881776322257218202737853987953178242907432285250172034799152213128644585695511122037713296593946693676755391782171985288495860603633695525537793319328319720738058659872524203916093550680889975002279711056741590052639127324476906666910711317654690291696419511346922387196150601444648742823668924287682142955181529420491541999403762596300263216997907148356125001303284185043195589566902774683915081338905422448957708140635629742045358880744245337543232869007198543809690823856665247159157679769652847480481190782099163218222820508232279536539529736683000400901557135542845440
  rw [mtInitA_loop2]
  decide

set_option maxRecDepth 1000000 in
theorem shuffleA_eq : pyShuffle 2463159298036097636 [1, 2, 3, 4, 5] = [3, 2, 4, 1, 5] := by
  show (shuffleLoop 4 [1, 2, 3, 4, 5] ⟨initByArray (natToKey 2463159298036097636), 624⟩).1 = [3, 2, 4, 1, 5]
  rw [mtInitA]
  decide

set_option maxRecDepth 1000000 in
theorem selectA_eq :
    _select_real_exercises_for_due [1, 2, 3, 4, 5]
      ⟨1, 0, "detour", "u1", 0, 1, 1, 0, 1, true, none⟩ 4 = [3, 2, 4, 1] := by
  unfold _select_real_exercises_for_due
  rw [if_neg (by decide), if_neg (by decide)]
  rw [show dueSeed ⟨1, 0, "detour", "u1", 0, 1, 1, 0, 1, true, none⟩ = 2463159298036097636 from by decide]
  rw [shuffleA_eq]
  decide

set_option maxRecDepth 1000000 in
theorem mtInitB_loop1 :
    initByArrayLoop1 [4120937568, 1742501387] 624 mtSeedBase 1 0 = (85368440105795245707714554491022273635659450663345779177912382754563831187472879963297398565954916126416715843817563864643580151962760405496928011078439759737302089211382569797140546611843897115552817181800976397939195666751781967781258488700319391412997366146674268409637304635319049086154128808722172769609881049173376247483385558503787665502800635976287829614858055398488985265939285731525726593672170686283451140965499587587715269916725404118624872125149622224282107891998844334686560957353103748330068446770299209428183230703723896649592236804004379890888854464722841710901368214073288876010435788265585478967343418001303710954381937279333289862235585389370871588941667381477726188769391639877311683323530584997443948841942228209684548247868558147742261418877848529082140470902810263687914307932271307835541122689531485461473419428456962277431521858099431263285324909495191050243695507254478811960527654939324598957210967365357423821250101796279919591740328776289374087540616679525424303186782167999848273654133727510189456392262860790779380939861348411252114662383651044156164026528399452268211597623216837569897745561608468843104822389599480203553280760167270938898993339576159804043834283080583508423519008436876012757737092651046302932768135617930447524996943772363807003154718090845441357283399433695736493200721780887163451928564234212114737418035113029265480476079641181296233363135844672964200284174791803294510806499862548829320728363662735636451054628521687626835168479776056842794668159226853345975503946300220341054419525140374369706854922714848976824299657639231796825156528817088422237066528281039370921693357011617635851110677874910483736626227725059020209482875971570303775900030109885137195505443892776054915875546591019294818816409455301713029121230338043338053230232277381620208785128085339457906927670404288770905007846381462820496823252040636632073727777013218864372762356714769676674234430624658225865370317663591956682531584516034443129023575478999961406889088163472179832559131418928139080655905834673836718213750896027849777584663454778471162087007950072178217544328558397612197688412631326655998509654320927815662518381825192973050887728097764770289138458227258506923764889610495784618868701338615942778911237734970591153150642917623555140042799445657634618464887868014137372684150795430665410996699557458149765059170050202368138959657951065687086643679418895822297284591605512207175787391862912532002764061659502556269316389527952165441954711432560419021640841753925679283747882859346461631678688805004700511592857991357433605685583043850895570029453454748193694926252656762794915823403493598435888217843152265829380174127557429577843729384374940800505851628069935251383996398289378585133994141266121191186695415806285934951097218049323904947224949212850651346948130600234282358025704211072565313420002785838069162622556374304304770928159488631919711256781538706062634119074647120863916924821216340712108941612300312384589264604913431136681482823366207640692948205322344700006568301489509477253530859466328984667417292812853739759750530246426442814964259799900105738657665080996220330334226517349886229367748239556379955974877187157324003383496751076747992862373235255916485681989876438060066842065280376262885725866171350357681674780489228829668000964002332432705215979932723165605088492608476480345876720247013155078904138514564034749629287326262123953232768672542666154286460923842328896529775643476639201093687063669202270955746780183574680937294519393921608876587782124227324163621396918403769365462007354359075156920204206412640070876081961671824435041374624672127507620058342392303444595777480961729631782890969435068534593672081621852461324835424882553553998854835833748375770225804387765747957749671084772863711264002803088115903944439321013694335308620704755777030469671899430957498590783497042583706866586857961317726632942755140748478594140040662360714361627025870786306978376605792335195432537141230975891998069112785001278641697072261116015204342062729200490174476492864336693953828846427037990740096952483267223201361361863275048837984664371903916706650123880794655486367509261862525761826989831581982544281452898851709246087676478593076487628740368745458066645584802234869204000737793105518173132705722182717757632462374077685213897390885875622701996205651951184849488814822255286626241704754761951767489387844339845569597901600267641863909204040767430432407483714508010908631287218410121484155158572341317131365669263991457140012486921172935065167391653194219201832996780905985250543920828599838834461212156852465220361403318814683625851006299006797037417418087738042135223099021219001211320060554058872086558913303807314043697966934913786680202439851183486522088762346480641943138811901391657918898826184570493990115686776394715225010744860026781422912648723228116319097773747175890768856960678881811798147096650810667719104783070394359110191000786552645413989328112069362003211829066764466610223195843455216850353187255512274197909270343471867275005496177132954614272945989220589486633110164780002339863278763358687974449481896172664830156110248518891807345002209851524377629014081823093251265032603205442290510393373343949124536436583333162435669954992268295303156482189657060622315424184145009985475893047771595740995619769823525742904294567128868310198530418698789003074010831896161215190853333762403262670317180917042838357806454700383460112118142030289634102303694110563790183457720278822794428474448053635636428944578365100130314232137524867379314428589897765148563692452485908328925072114732077472630596541374865445696420036857455604757785268773136395585068164638884138665687924083767934805810902821042130579418254478500439984852246525100301438324671185361787633200126283637031003379457801837015010409530903551576555340341243891715651490454203643722223421497251416387697867331148309684522511840997844122915810998007580202957436750114767238430584819770826591114907607012792134011175706012421598009275805241998380956244593968900016404072617793309195263859, 2, 0) := by
  decide

set_option maxRecDepth 1000000 in
theorem mtInitB_loop2 :
    initByArrayLoop2 623 85368440105795245707714554491022273635659450663345779177912382754563831187472879963297398565954916126416715843817563864643580151962760405496928011078439759737302089211382569797140546611843897115552817181800976397939195666751781967781258488700319391412997366146674268409637304635319049086154128808722172769609881049173376247483385558503787665502800635976287829614858055398488985265939285731525726593672170686283451140965499587587715269916725404118624872125149622224282107891998844334686560957353103748330068446770299209428183230703723896649592236804004379890888854464722841710901368214073288876010435788265585478967343418001303710954381937279333289862235585389370871588941667381477726188769391639877311683323530584997443948841942228209684548247868558147742261418877848529082140470902810263687914307932271307835541122689531485461473419428456962277431521858099431263285324909495191050243695507254478811960527654939324598957210967365357423821250101796279919591740328776289374087540616679525424303186782167999848273654133727510189456392262860790779380939861348411252114662383651044156164026528399452268211597623216837569897745561608468843104822389599480203553280760167270938898993339576159804043834283080583508423519008436876012757737092651046302932768135617930447524996943772363807003154718090845441357283399433695736493200721780887163451928564234212114737418035113029265480476079641181296233363135844672964200284174791803294510806499862548829320728363662735636451054628521687626835168479776056842794668159226853345975503946300220341054419525140374369706854922714848976824299657639231796825156528817088422237066528281039370921693357011617635851110677874910483736626227725059020209482875971570303775900030109885137195505443892776054915875546591019294818816409455301713029121230338043338053230232277381620208785128085339457906927670404288770905007846381462820496823252040636632073727777013218864372762356714769676674234430624658225865370317663591956682531584516034443129023575478999961406889088163472179832559131418928139080655905834673836718213750896027849777584663454778471162087007950072178217544328558397612197688412631326655998509654320927815662518381825192973050887728097764770289138458227258506923764889610495784618868701338615942778911237734970591153150642917623555140042799445657634618464887868014137372684150795430665410996699557458149765059170050202368138959657951065687086643679418895822297284591605512207175787391862912532002764061659502556269316389527952165441954711432560419021640841753925679283747882859346461631678688805004700511592857991357433605685583043850895570029453454748193694926252656762794915823403493598435888217843152265829380174127557429577843729384374940800505851628069935251383996398289378585133994141266121191186695415806285934951097218049323904947224949212850651346948130600234282358025704211072565313420002785838069162622556374304304770928159488631919711256781538706062634119074647120863916924821216340712108941612300312384589264604913431136681482823366207640692948205322344700006568301489509477253530859466328984667417292812853739759750530246426442814964259799900105738657665080996220330334226517349886229367748239556379955974877187157324003383496751076747992862373235255916485681989876438060066842065280376262885725866171350357681674780489228829668000964002332432705215979932723165605088492608476480345876720247013155078904138514564034749629287326262123953232768672542666154286460923842328896529775643476639201093687063669202270955746780183574680937294519393921608876587782124227324163621396918403769365462007354359075156920204206412640070876081961671824435041374624672127507620058342392303444595777480961729631782890969435068534593672081621852461324835424882553553998854835833748375770225804387765747957749671084772863711264002803088115903944439321013694335308620704755777030469671899430957498590783497042583706866586857961317726632942755140748478594140040662360714361627025870786306978376605792335195432537141230975891998069112785001278641697072261116015204342062729200490174476492864336693953828846427037990740096952483267223201361361863275048837984664371903916706650123880794655486367509261862525761826989831581982544281452898851709246087676478593076487628740368745458066645584802234869204000737793105518173132705722182717757632462374077685213897390885875622701996205651951184849488814822255286626241704754761951767489387844339845569597901600267641863909204040767430432407483714508010908631287218410121484155158572341317131365669263991457140012486921172935065167391653194219201832996780905985250543920828599838834461212156852465220361403318814683625851006299006797037417418087738042135223099021219001211320060554058872086558913303807314043697966934913786680202439851183486522088762346480641943138811901391657918898826184570493990115686776394715225010744860026781422912648723228116319097773747175890768856960678881811798147096650810667719104783070394359110191000786552645413989328112069362003211829066764466610223195843455216850353187255512274197909270343471867275005496177132954614272945989220589486633110164780002339863278763358687974449481896172664830156110248518891807345002209851524377629014081823093251265032603205442290510393373343949124536436583333162435669954992268295303156482189657060622315424184145009985475893047771595740995619769823525742904294567128868310198530418698789003074010831896161215190853333762403262670317180917042838357806454700383460112118142030289634102303694110563790183457720278822794428474448053635636428944578365100130314232137524867379314428589897765148563692452485908328925072114732077472630596541374865445696420036857455604757785268773136395585068164638884138665687924083767934805810902821042130579418254478500439984852246525100301438324671185361787633200126283637031003379457801837015010409530903551576555340341243891715651490454203643722223421497251416387697867331148309684522511840997844122915810998007580202957436750114767238430584819770826591114907607012792134011175706012421598009275805241998380956244593968900016404072617793309195263859 2 = 85055431441674573614745166717340922409217344339072981899213325019582750170532599349974790225094152703528612014641847484531593054349329298203165638401511050958165609379217007639957875992404031080711983545271522383406812528051763423436795513709918495269975516898177277643534246873600299219910349999989576039030712885224353584616830031873732336170136478280887225752466197059628553389403100943834987963291009799770731484808039248081691038725032691208416742600886094315298762798103280078810089734066451307997598494523673617538980590942456521416420553416321954521293104559054368230922098870581734899205623859833343433903232687803255165818965876450516345015624471253666955490427726079417793275074460473690030203287566432389064742500255507515112163516300649493283928438221313375085402613726891358654141504879713574436341858919973813561963547414537302628089952727747777895783690478575250636246110352806235534446467131213187955199597513614646761163815850642190765937100097000917409284069142771447423045402686202070637044570139254062348879919307221551166370842450332570913383251401108489346309014768675900976585543949214571319596485324253546083671681549256729460695137037417426489657001633824792752286227079095272763429871910049400820518347783657696046433011199821671846786667787088490229715166069924853697919606955264298336580184613955066767559711379428250708450829745110225752934535620774359242588110762579709689459746726918239153092597223361281377131729473244219430016966258531127243234343859497277660110351986984393694204650572471191098940257087067344751455920885938302246077867776415197907433050902338392046029917008792216517802307802972028948051421307906485609553190621407944020534977610255354045061881032974725888806620400617449753418192726908091973110841621053072303993098567994513430558179396728768620479579757533011663764682854109815133582777701110777626570576788660867659831975396199836055258834195601124867010903751095871041077511618908403850093037951534663385824965217076757730409760734448666292639647498302116534967403983025950241977336714373513823263506725839321859189232726567856657006475882788645888679766256848765088405767412747320135805857822835661288778586770570921363851415362570107564810226378245177537051409566495208137958098644286642345907992162720038043030156053925433776054641689769063049114747497990646252752080394030095813638661949547692558631445898507912354578708168310182441774817738532296236269679999577427934781591287042093272590017743685103970411182634970880487341729279164625650340501914852223141703205006049647691157673871664778989758009114366323045766294002315617840998162183360966814632747419530208759603522825058108690002135611546759092987131145567265157768433280380314445466811182387032503964704067625673979713625930182140995543389594029273180940037558842873308470988918512210580007168762077375413965266819538394576527523001283086869602452677693531195916603369492423199522309941160038245341236247440102017200924432530212329445269132763761968186433463083119179611296308241779321420413686444175523694977595899839866297645699583173486387674359464090063532510179302769228533210413597537716840600247535960006519208309526837339088753698117435918470455433146323651029469632837136272994851651955721967285174763593309320541296685891447809339517746222323602730067225108615437611579111629360247763251385134989026828522692549610503569678507286707840431014759314556585449528773623779071331423343557750747628453980925041886028382824960631092276395941966369952873519421866301539137400941509958965944674124827558373274812832535482841362142851829334163416829454631853012642090047674811117505060961283039202361383376035245380798529556418429937800593524102194125499769384884787566880327224119042823436870877523914808205373501676105597546492777801539458080004538590627470549633927665785545815918819784488161150522727728091342076150711461923592739224346343871487559133138249882161550456357621819693543693767267130013630509981915018269514449148496666731864086595830964524611869658799246202087419378780879290726902926974048050856737497281593448881020666517587805852752484488931215350173303606862104557555380411797093921890400672835332497357669713251891060497680358325519802456098647625536533369294119894988483916614858922820916654834512170019659283609495187319886242997396428541671408467162176188539294084609549597001170076480284103245901829856491060006296773783419540768705221962179151533003907871900580218478910142094740646924226235818272493849572618056115735785386311419506776393393877156513277477668518169300787109973350408842406619611451128249750799964635611349611456273276490919778881816562646789279650098326558037339742706120100011017617243611498446929950400591673287835133962809251357424157806045969972065553069010494656301713058524668701166118398322076769438718350209931904350329933918157980440553631446843467670521727769373536385686669290363913719950287793626840545831275731158991887147956851977455793871229560697310671159242774498430510758019741230400124985187512965304498243692626703543344779630558481086733866098190340556455370844925323208278443137478712434327351045051191050851916825791357704498040337454266078530269948495870574349676320223640383332164490586347320191882695699051385380158985162563934191220985043762312285156374494746765129664011727949905658551382246561383644868017299288278508859980954610228369229963804963300289563756967558053889016833646348716093477862733147149506494578741543533709505044896553673043339364574051933473566328181866153691864203644413012196931117829154978496889311170413129187971072092713694608758470030583569842264190444326393687870257909052026386498661642589686012829469456136358753044557626560719922457627328361929699398126731495766089558129390906944382103272889918261605998539173984464683922645310517875447352170435788663382826198405291982619153630657013420927944355194828879570292430812309334148623345419738697501351113725889047181399185804963762626725053943101003714457098072823113773964732362569656509620960785554739515441418074044879737338713697748329 := by
  decide

set_option maxRecDepth 1000000 in
theorem mtInitB : initByArray (natToKey 7483986474520577120) = 85055431441674573614745166717340922409217344339072981899213325019582750170532599349974790225094152703528612014641847484531593054349329298203165638401511050958165609379217007639957875992404031080711983545271522383406812528051763423436795513709918495269975516898177277643534246873600299219910349999989576039030712885224353584616830031873732336170136478280887225752466197059628553389403100943834987963291009799770731484808039248081691038725032691208416742600886094315298762798103280078810089734066451307997598494523673617538980590942456521416420553416321954521293104559054368230922098870581734899205623859833343433903232687803255165818965876450516345015624471253666955490427726079417793275074460473690030203287566432389064742500255507515112163516300649493283928438221313375085402613726891358654141504879713574436341858919973813561963547414537302628089952727747777895783690478575250636246110352806235534446467131213187955199597513614646761163815850642190765937100097000917409284069142771447423045402686202070637044570139254062348879919307221551166370842450332570913383251401108489346309014768675900976585543949214571319596485324253546083671681549256729460695137037417426489657001633824792752286227079095272763429871910049400820518347783657696046433011199821671846786667787088490229715166069924853697919606955264298336580184613955066767559711379428250708450829745110225752934535620774359242588110762579709689459746726918239153092597223361281377131729473244219430016966258531127243234343859497277660110351986984393694204650572471191098940257087067344751455920885938302246077867776415197907433050902338392046029917008792216517802307802972028948051421307906485609553190621407944020534977610255354045061881032974725888806620400617449753418192726908091973110841621053072303993098567994513430558179396728768620479579757533011663764682854109815133582777701110777626570576788660867659831975396199836055258834195601124867010903751095871041077511618908403850093037951534663385824965217076757730409760734448666292639647498302116534967403983025950241977336714373513823263506725839321859189232726567856657006475882788645888679766256848765088405767412747320135805857822835661288778586770570921363851415362570107564810226378245177537051409566495208137958098644286642345907992162720038043030156053925433776054641689769063049114747497990646252752080394030095813638661949547692558631445898507912354578708168310182441774817738532296236269679999577427934781591287042093272590017743685103970411182634970880487341729279164625650340501914852223141703205006049647691157673871664778989758009114366323045766294002315617840998162183360966814632747419530208759603522825058108690002135611546759092987131145567265157768433280380314445466811182387032503964704067625673979713625930182140995543389594029273180940037558842873308470988918512210580007168762077375413965266819538394576527523001283086869602452677693531195916603369492423199522309941160038245341236247440102017200924432530212329445269132763761968186433463083119179611296308241779321420413686444175523694977595899839866297645699583173486387674359464090063532510179302769228533210413597537716840600247535960006519208309526837339088753698117435918470455433146323651029469632837136272994851651955721967285174763593309320541296685891447809339517746222323602730067225108615437611579111629360247763251385134989026828522692549610503569678507286707840431014759314556585449528773623779071331423343557750747628453980925041886028382824960631092276395941966369952873519421866301539137400941509958965944674124827558373274812832535482841362142851829334163416829454631853012642090047674811117505060961283039202361383376035245380798529556418429937800593524102194125499769384884787566880327224119042823436870877523914808205373501676105597546492777801539458080004538590627470549633927665785545815918819784488161150522727728091342076150711461923592739224346343871487559133138249882161550456357621819693543693767267130013630509981915018269514449148496666731864086595830964524611869658799246202087419378780879290726902926974048050856737497281593448881020666517587805852752484488931215350173303606862104557555380411797093921890400672835332497357669713251891060497680358325519802456098647625536533369294119894988483916614858922820916654834512170019659283609495187319886242997396428541671408467162176188539294084609549597001170076480284103245901829856491060006296773783419540768705221962179151533003907871900580218478910142094740646924226235818272493849572618056115735785386311419506776393393877156513277477668518169300787109973350408842406619611451128249750799964635611349611456273276490919778881816562646789279650098326558037339742706120100011017617243611498446929950400591673287835133962809251357424157806045969972065553069010494656301713058524668701166118398322076769438718350209931904350329933918157980440553631446843467670521727769373536385686669290363913719950287793626840545831275731158991887147956851977455793871229560697310671159242774498430510758019741230400124985187512965304498243692626703543344779630558481086733866098190340556455370844925323208278443137478712434327351045051191050851916825791357704498040337454266078530269948495870574349676320223640383332164490586347320191882695699051385380158985162563934191220985043762312285156374494746765129664011727949905658551382246561383644868017299288278508859980954610228369229963804963300289563756967558053889016833646348716093477862733147149506494578741543533709505044896553673043339364574051933473566328181866153691864203644413012196931117829154978496889311170413129187971072092713694608758470030583569842264190444326393687870257909052026386498661642589686012829469456136358753044557626560719922457627328361929699398126731495766089558129390906944382103272889918261605998539173984464683922645310517875447352170435788663382826198405291982619153630657013420927944355194828879570292430812309334148623345419738697501351113725889047181399185804963762626725053943101003714457098072823113773964732362569656509620960785554739515441418074044879737338711903305728 := by
  unfold initByArray
  rw [show natToKey 7483986474520577120 = [4120937568, 1742501387] from by decide]
  rw [show (max 624 (List.length [4120937568, 1742501387])) = 624 from by decide]
  rw [mtSeedBase_eq, mtInitB_loop1]
  show mtSet (initByArrayLoop2 623 85368440105795245707714554491022273635659450663345779177912382754563831187472879963297398565954916126416715843817563864643580151962760405496928011078439759737302089211382569797140546611843897115552817181800976397939195666751781967781258488700319391412997366146674268409637304635319049086154128808722172769609881049173376247483385558503787665502800635976287829614858055398488985265939285731525726593672170686283451140965499587587715269916725404118624872125149622224282107891998844334686560957353103748330068446770299209428183230703723896649592236804004379890888854464722841710901368214073288876010435788265585478967343418001303710954381937279333289862235585389370871588941667381477726188769391639877311683323530584997443948841942228209684548247868558147742261418877848529082140470902810263687914307932271307835541122689531485461473419428456962277431521858099431263285324909495191050243695507254478811960527654939324598957210967365357423821250101796279919591740328776289374087540616679525424303186782167999848273654133727510189456392262860790779380939861348411252114662383651044156164026528399452268211597623216837569897745561608468843104822389599480203553280760167270938898993339576159804043834283080583508423519008436876012757737092651046302932768135617930447524996943772363807003154718090845441357283399433695736493200721780887163451928564234212114737418035113029265480476079641181296233363135844672964200284174791803294510806499862548829320728363662735636451054628521687626835168479776056842794668159226853345975503946300220341054419525140374369706854922714848976824299657639231796825156528817088422237066528281039370921693357011617635851110677874910483736626227725059020209482875971570303775900030109885137195505443892776054915875546591019294818816409455301713029121230338043338053230232277381620208785128085339457906927670404288770905007846381462820496823252040636632073727777013218864372762356714769676674234430624658225865370317663591956682531584516034443129023575478999961406889088163472179832559131418928139080655905834673836718213750896027849777584663454778471162087007950072178217544328558397612197688412631326655998509654320927815662518381825192973050887728097764770289138458227258506923764889610495784618868701338615942778911237734970591153150642917623555140042799445657634618464887868014137372684150795430665410996699557458149765059170050202368138959657951065687086643679418895822297284591605512207175787391862912532002764061659502556269316389527952165441954711432560419021640841753925679283747882859346461631678688805004700511592857991357433605685583043850895570029453454748193694926252656762794915823403493598435888217843152265829380174127557429577843729384374940800505851628069935251383996398289378585133994141266121191186695415806285934951097218049323904947224949212850651346948130600234282358025704211072565313420002785838069162622556374304304770928159488631919711256781538706062634119074647120863916924821216340712108941612300312384589264604913431136681482823366207640692948205322344700006568301489509477253530859466328984667417292812853739759750530246426442814964259799900105738657665080996220330334226517349886229367748239556379955974877187157324003383496751076747992862373235255916485681989876438060066842065280376262885725866171350357681674780489228829668000964002332432705215979932723165605088492608476480345876720247013155078904138514564034749629287326262123953232768672542666154286460923842328896529775643476639201093687063669202270955746780183574680937294519393921608876587782124227324163621396918403769365462007354359075156920204206412640070876081961671824435041374624672127507620058342392303444595777480961729631782890969435068534593672081621852461324835424882553553998854835833748375770225804387765747957749671084772863711264002803088115903944439321013694335308620704755777030469671899430957498590783497042583706866586857961317726632942755140748478594140040662360714361627025870786306978376605792335195432537141230975891998069112785001278641697072261116015204342062729200490174476492864336693953828846427037990740096952483267223201361361863275048837984664371903916706650123880794655486367509261862525761826989831581982544281452898851709246087676478593076487628740368745458066645584802234869204000737793105518173132705722182717757632462374077685213897390885875622701996205651951184849488814822255286626241704754761951767489387844339845569597901600267641863909204040767430432407483714508010908631287218410121484155158572341317131365669263991457140012486921172935065167391653194219201832996780905985250543920828599838834461212156852465220361403318814683625851006299006797037417418087738042135223099021219001211320060554058872086558913303807314043697966934913786680202439851183486522088762346480641943138811901391657918898826184570493990115686776394715225010744860026781422912648723228116319097773747175890768856960678881811798147096650810667719104783070394359110191000786552645413989328112069362003211829066764466610223195843455216850353187255512274197909270343471867275005496177132954614272945989220589486633110164780002339863278763358687974449481896172664830156110248518891807345002209851524377629014081823093251265032603205442290510393373343949124536436583333162435669954992268295303156482189657060622315424184145009985475893047771595740995619769823525742904294567128868310198530418698789003074010831896161215190853333762403262670317180917042838357806454700383460112118142030289634102303694110563790183457720278822794428474448053635636428944578365100130314232137524867379314428589897765148563692452485908328925072114732077472630596541374865445696420036857455604757785268773136395585068164638884138665687924083767934805810902821042130579418254478500439984852246525100301438324671185361787633200126283637031003379457801837015010409530903551576555340341243891715651490454203643722223421497251416387697867331148309684522511840997844122915810998007580202957436750114767238430584819770826591114907607012792134011175706012421598009275805241998380956244593968900016404072617793309195263859 2) 0 2147483648 = 85055431441674573614745166717340922409217344339072981899213325019582750170532599349974790225094152703528612014641847484531593054349329298203165638401511050958165609379217007639957875992404031080711983545271522383406812528051763423436795513709918495269975516898177277643534246873600299219910349999989576039030712885224353584616830031873732336170136478280887225752466197059628553389403100943834987963291009799770731484808039248081691038725032691208416742600886094315298762798103280078810089734066451307997598494523673617538980590942456521416420553416321954521293104559054368230922098870581734899205623859833343433903232687803255165818965876450516345015624471253666955490427726079417793275074460473690030203287566432389064742500255507515112163516300649493283928438221313375085402613726891358654141504879713574436341858919973813561963547414537302628089952727747777895783690478575250636246110352806235534446467131213187955199597513614646761163815850642190765937100097000917409284069142771447423045402686202070637044570139254062348879919307221551166370842450332570913383251401108489346309014768675900976585543949214571319596485324253546083671681549256729460695137037417426489657001633824792752286227079095272763429871910049400820518347783657696046433011199821671846786667787088490229715166069924853697919606955264298336580184613955066767559711379428250708450829745110225752934535620774359242588110762579709689459746726918239153092597223361281377131729473244219430016966258531127243234343859497277660110351986984393694204650572471191098940257087067344751455920885938302246077867776415197907433050902338392046029917008792216517802307802972028948051421307906485609553190621407944020534977610255354045061881032974725888806620400617449753418192726908091973110841621053072303993098567994513430558179396728768620479579757533011663764682854109815133582777701110777626570576788660867659831975396199836055258834195601124867010903751095871041077511618908403850093037951534663385824965217076757730409760734448666292639647498302116534967403983025950241977336714373513823263506725839321859189232726567856657006475882788645888679766256848765088405767412747320135805857822835661288778586770570921363851415362570107564810226378245177537051409566495208137958098644286642345907992162720038043030156053925433776054641689769063049114747497990646252752080394030095813638661949547692558631445898507912354578708168310182441774817738532296236269679999577427934781591287042093272590017743685103970411182634970880487341729279164625650340501914852223141703205006049647691157673871664778989758009114366323045766294002315617840998162183360966814632747419530208759603522825058108690002135611546759092987131145567265157768433280380314445466811182387032503964704067625673979713625930182140995543389594029273180940037558842873308470988918512210580007168762077375413965266819538394576527523001283086869602452677693531195916603369492423199522309941160038245341236247440102017200924432530212329445269132763761968186433463083119179611296308241779321420413686444175523694977595899839866297645699583173486387674359464090063532510179302769228533210413597537716840600247535960006519208309526837339088753698117435918470455433146323651029469632837136272994851651955721967285174763593309320541296685891447809339517746222323602730067225108615437611579111629360247763251385134989026828522692549610503569678507286707840431014759314556585449528773623779071331423343557750747628453980925041886028382824960631092276395941966369952873519421866301539137400941509958965944674124827558373274812832535482841362142851829334163416829454631853012642090047674811117505060961283039202361383376035245380798529556418429937800593524102194125499769384884787566880327224119042823436870877523914808205373501676105597546492777801539458080004538590627470549633927665785545815918819784488161150522727728091342076150711461923592739224346343871487559133138249882161550456357621819693543693767267130013630509981915018269514449148496666731864086595830964524611869658799246202087419378780879290726902926974048050856737497281593448881020666517587805852752484488931215350173303606862104557555380411797093921890400672835332497357669713251891060497680358325519802456098647625536533369294119894988483916614858922820916654834512170019659283609495187319886242997396428541671408467162176188539294084609549597001170076480284103245901829856491060006296773783419540768705221962179151533003907871900580218478910142094740646924226235818272493849572618056115735785386311419506776393393877156513277477668518169300787109973350408842406619611451128249750799964635611349611456273276490919778881816562646789279650098326558037339742706120100011017617243611498446929950400591673287835133962809251357424157806045969972065553069010494656301713058524668701166118398322076769438718350209931904350329933918157980440553631446843467670521727769373536385686669290363913719950287793626840545831275731158991887147956851977455793871229560697310671159242774498430510758019741230400124985187512965304498243692626703543344779630558481086733866098190340556455370844925323208278443137478712434327351045051191050851916825791357704498040337454266078530269948495870574349676320223640383332164490586347320191882695699051385380158985162563934191220985043762312285156374494746765129664011727949905658551382246561383644868017299288278508859980954610228369229963804963300289563756967558053889016833646348716093477862733147149506494578741543533709505044896553673043339364574051933473566328181866153691864203644413012196931117829154978496889311170413129187971072092713694608758470030583569842264190444326393687870257909052026386498661642589686012829469456136358753044557626560719922457627328361929699398126731495766089558129390906944382103272889918261605998539173984464683922645310517875447352170435788663382826198405291982619153630657013420927944355194828879570292430812309334148623345419738697501351113725889047181399185804963762626725053943101003714457098072823113773964732362569656509620960785554739515441418074044879737338711903305728
  rw [mtInitB_loop2]
  decide

set_option maxRecDepth 1000000 in
theorem shuffleB_eq : pyShuffle 7483986474520577120 [1, 2, 3, 4, 5] = [5, 3, 4, 1, 2] := by
  show (shuffleLoop 4 [1, 2, 3, 4, 5] ⟨initByArray (natToKey 7483986474520577120), 624⟩).1 = [5, 3, 4, 1, 2]
  rw [mtInitB]
  decide

set_option maxRecDepth 1000000 in
theorem selectB_eq :
    _select_real_exercises_for_due [1, 2, 3, 4, 5]
      ⟨2, 0, "detour", "u1", 0, 1, 1, 0, 1, true, none⟩ 4 = [5, 3, 4, 1] := by
  unfold _select_real_exercises_for_due
  rw [if_neg (by decide), if_neg (by decide)]
  rw [show dueSeed ⟨2, 0, "detour", "u1", 0, 1, 1, 0, 1, true, none⟩ = 7483986474520577120 from by decide]
  rw [shuffleB_eq]
  decide

end GrammarBot

namespace GrammarBot

theorem listSwap_length (l : List Nat) (i j : Nat) : (listSwap l i j).length = l.length := by
  unfold listSwap
  rw [List.length_set, List.length_set]

theorem shuffleLoop_length (k : Nat) (l : List Nat) (st : MTState) :
    (shuffleLoop k l st).1.length = l.length := by
  induction k generalizing l st with
  | zero => rfl
  | succ i ih =>
    rw [shuffleLoop]
    rw [ih, listSwap_length]

theorem pyShuffle_length (seed : Nat) (l : List Nat) : (pyShuffle seed l).length = l.length := by
  unfold pyShuffle
  cases l with
  | nil => rfl
  | cons a rest => exact shuffleLoop_length _ _ _

/-- Claim C8: exercise selection is a pure function of the candidate pool
and the due item's `(id, unit_key, kind)` (identical triples give
identical ordered lists); for `detour`/`revisit` its length is
`min cap |pool|` with cap 4 for `detour` and 2 for `revisit`; and
distinct ids for the same unit and kind can produce different
orderings. -/
theorem c8_selector_determinism :
    (∀ (pool : List Nat) (d1 d2 : DueItem) (m : Nat),
      d1.id = d2.id → d1.unit_key = d2.unit_key → d1.kind = d2.kind →
      _select_real_exercises_for_due pool d1 m = _select_real_exercises_for_due pool d2 m) ∧
    (∀ (pool : List Nat) (due : DueItem), due.kind = "detour" ∨ due.kind = "revisit" →
      (_select_real_exercises_for_due pool due ((_due_max_exercises due).getD 0)).length
        = min ((_due_max_exercises due).getD 0) pool.length) ∧
    (∃ (pool : List Nat) (d1 d2 : DueItem),
      d1.unit_key = d2.unit_key ∧ d1.kind = d2.kind ∧ d1.id ≠ d2.id ∧
      _select_real_exercises_for_due pool d1 4 ≠ _select_real_exercises_for_due pool d2 4) := by
  refine ⟨?_, ?_, ?_⟩
  · intro pool d1 d2 m h1 h2 h3
    unfold _select_real_exercises_for_due dueSeed
    rw [h1, h2, h3]
  · intro pool due hkind
    have hcap : 0 < (_due_max_exercises due).getD 0 := by
      rcases hkind with h | h <;> simp [_due_max_exercises, h]
    unfold _select_real_exercises_for_due
    rw [if_neg (by omega)]
    by_cases hp : pool = []
    · rw [if_pos hp, hp]
      simp
    · rw [if_neg hp]
      rw [List.length_take, pyShuffle_length]
      omega
  · refine ⟨[1, 2, 3, 4, 5], ⟨1, 0, "detour", "u1", 0, 1, 1, 0, 1, true, none⟩,
      ⟨2, 0, "detour", "u1", 0, 1, 1, 0, 1, true, none⟩, rfl, rfl, by decide, ?_⟩
    rw [selectA_eq, selectB_eq]
    decide

/-- Claim C8 witness: the theorem's length bound applied to a concrete
`detour` due item over a five-exercise pool: the selection has length
`min 4 5`. -/
theorem c8_witness :
    (_select_real_exercises_for_due [1, 2, 3, 4, 5]
      ⟨1, 0, "detour", "u1", 0, 1, 1, 0, 1, true, none⟩
      ((_due_max_exercises ⟨1, 0, "detour", "u1", 0, 1, 1, 0, 1, true, none⟩).getD 0)).length
      = min ((_due_max_exercises ⟨1, 0, "detour", "u1", 0, 1, 1, 0, 1, true, none⟩).getD 0)
        ([1, 2, 3, 4, 5] : List Nat).length :=
  c8_selector_determinism.2.1 [1, 2, 3, 4, 5] _ (Or.inl rfl)

end GrammarBot


namespace GrammarBot

/-! ## Claims C2, C3 -/

theorem advance_fst (pool : List Nat) (due : DueItem) (ec : Bool) (il : Option Nat) :
    (_advance_due_detour_revisit pool due ec il).1 = _advance_state due ec il := by
  by_cases h1 : _select_real_exercises_for_due pool (_advance_state due ec il)
      ((_due_max_exercises (_advance_state due ec il)).getD 0) = []
  · unfold _advance_due_detour_revisit
    rw [if_pos h1]
  · unfold _advance_due_detour_revisit
    rw [if_neg h1]
    by_cases h2 : (_select_real_exercises_for_due pool (_advance_state due ec il)
          ((_due_max_exercises (_advance_state due ec il)).getD 0)).length
        < (if (_advance_state due ec il).exercise_index = 0 then 1
           else (_advance_state due ec il).exercise_index)
    · rw [if_pos h2]
    · rw [if_neg h2]

theorem advance_snd_iff (pool : List Nat) (due : DueItem) (ec : Bool) (il : Option Nat) :
    (_advance_due_detour_revisit pool due ec il).2 = true ↔
      (_select_real_exercises_for_due pool (_advance_state due ec il)
          ((_due_max_exercises (_advance_state due ec il)).getD 0)).length
        < (if (_advance_state due ec il).exercise_index = 0 then 1
           else (_advance_state due ec il).exercise_index) := by
  have heff : 1 ≤ (if (_advance_state due ec il).exercise_index = 0 then 1
      else (_advance_state due ec il).exercise_index) := by
    split_ifs <;> omega
  by_cases h1 : _select_real_exercises_for_due pool (_advance_state due ec il)
      ((_due_max_exercises (_advance_state due ec il)).getD 0) = []
  · unfold _advance_due_detour_revisit
    rw [if_pos h1, h1]
    simp only [List.length_nil, true_iff]
    omega
  · unfold _advance_due_detour_revisit
    rw [if_neg h1]
    by_cases h2 : (_select_real_exercises_for_due pool (_advance_state due ec il)
          ((_due_max_exercises (_advance_state due ec il)).getD 0)).length
        < (if (_advance_state due ec il).exercise_index = 0 then 1
           else (_advance_state due ec il).exercise_index)
    · rw [if_pos h2]
      simpa using h2
    · rw [if_neg h2]
      simpa using h2

theorem advance_state_fields (due : DueItem) (ec : Bool) (il : Option Nat) :
    (_advance_state due ec il).kind = due.kind ∧
      (_advance_state due ec il).tg_user_id = due.tg_user_id ∧
      (_advance_state due ec il).unit_key = due.unit_key ∧
      (_advance_state due ec il).cause_rule_keys_json = due.cause_rule_keys_json := by
  unfold _advance_state
  split_ifs <;> exact ⟨rfl, rfl, rfl, rfl⟩

/-- Claim C2: the scheduler transition of a `detour`/`revisit` due item on
one graded answer, with a known positive item count `n` for the current
exercise: a correct answer increments `correct_in_exercise`, completing
the exercise at `min 2 n` (advance, reset); otherwise `item_in_exercise`
advances, wrapping past `n` under the same advance/reset rule; a wrong
answer resets the within-exercise counters and leaves `exercise_index`
unchanged. -/
theorem c2_scheduler_transition (pool : List Nat) (due : DueItem) (ec : Bool) (n : Nat)
    (hkind : due.kind = "detour" ∨ due.kind = "revisit")
    (hn : 0 < n) (hitem : 1 ≤ due.item_in_exercise) :
    (ec = true → min 2 n ≤ due.correct_in_exercise + 1 →
      (_advance_due_detour_revisit pool due ec (some n)).1 =
        { due with
            exercise_index := due.exercise_index + 1
            item_in_exercise := 1
            correct_in_exercise := 0 }) ∧
    (ec = true → due.correct_in_exercise + 1 < min 2 n → due.item_in_exercise + 1 ≤ n →
      (_advance_due_detour_revisit pool due ec (some n)).1 =
        { due with
            item_in_exercise := due.item_in_exercise + 1
            correct_in_exercise := due.correct_in_exercise + 1 }) ∧
    (ec = true → due.correct_in_exercise + 1 < min 2 n → n < due.item_in_exercise + 1 →
      (_advance_due_detour_revisit pool due ec (some n)).1 =
        { due with
            exercise_index := due.exercise_index + 1
            item_in_exercise := 1
            correct_in_exercise := 0 }) ∧
    (ec = false →
      (_advance_due_detour_revisit pool due ec (some n)).1 =
        { due with
            item_in_exercise := 1
            correct_in_exercise := 0 }) := by
  have hreq : advanceRequired (some n) = min 2 n := by
    show (if 0 < n then min 2 n else 2) = min 2 n
    rw [if_pos hn]
  have hset : (if due.item_in_exercise = 0 then 1 else due.item_in_exercise)
      = due.item_in_exercise := by
    rw [if_neg (by omega)]
  refine ⟨?_, ?_, ?_, ?_⟩
  · intro hec hreach
    rw [advance_fst]
    unfold _advance_state
    rw [hec]
    simp only [if_true]
    rw [hreq, if_pos hreach]
  · intro hec hbelow hfit
    rw [advance_fst]
    unfold _advance_state
    rw [hec]
    simp only [if_true]
    rw [hreq, if_neg (show ¬(min 2 n ≤ due.correct_in_exercise + 1) from by omega)]
    rw [hset]
    rw [if_neg (show ¬(advanceWrap (some n) (due.item_in_exercise + 1) = true) from by
      show decide (0 < n ∧ n < due.item_in_exercise + 1) = true → False
      rw [decide_eq_true_eq]
      omega)]
  · intro hec hbelow hover
    rw [advance_fst]
    unfold _advance_state
    rw [hec]
    simp only [if_true]
    rw [hreq, if_neg (show ¬(min 2 n ≤ due.correct_in_exercise + 1) from by omega)]
    rw [hset]
    rw [if_pos (show (advanceWrap (some n) (due.item_in_exercise + 1) = true) from by
      show decide (0 < n ∧ n < due.item_in_exercise + 1) = true
      rw [decide_eq_true_eq]
      exact ⟨hn, by omega⟩)]
  · intro hec
    rw [advance_fst]
    unfold _advance_state
    rw [hec]
    simp only [Bool.false_eq_true, if_false]

/-- Claim C2 witness: the theorem applied to a concrete `detour` due item
(2-item exercise, one prior correct answer): the correct answer completes
the exercise and advances with reset counters. -/
theorem c2_witness :
    (_advance_due_detour_revisit [] ⟨9, 5, "detour", "u2", 0, 2, 2, 1, 1, true, none⟩
        true (some 2)).1 =
      { (⟨9, 5, "detour", "u2", 0, 2, 2, 1, 1, true, none⟩ : DueItem) with
          exercise_index := 3
          item_in_exercise := 1
          correct_in_exercise := 0 } :=
  (c2_scheduler_transition [] ⟨9, 5, "detour", "u2", 0, 2, 2, 1, 1, true, none⟩ true 2
    (Or.inl rfl) (by decide) (by decide)).1 rfl (by decide)

/-- Claim C3: when a `detour`/`revisit` due item completes — equivalently,
when its (effective) exercise index exceeds the length of its
selected-exercise list — it is deactivated and exactly one successor is
created for the same learner and unit with counters (1, 1, 0) and the
same cause keys: `detour` spawns a `revisit` due 2 days later, `revisit`
spawns a `check` due 7 days later, and `check` spawns nothing from this
rule. -/
theorem c3_completion_spawn (pool : List Nat) (due : DueItem) (ec : Bool)
    (il : Option Nat) (now : Int)
    (hkind : due.kind = "detour" ∨ due.kind = "revisit")
    (hdone : (_advance_due_detour_revisit pool due ec il).2 = true) :
    ((_advance_due_detour_revisit pool due ec il).2 = true ↔
      (_select_real_exercises_for_due pool (_advance_state due ec il)
          ((_due_max_exercises (_advance_state due ec il)).getD 0)).length
        < (if (_advance_state due ec il).exercise_index = 0 then 1
           else (_advance_state due ec il).exercise_index)) ∧
    (step_due_after_grade pool due ec il now).1.is_active = false ∧
    (due.kind = "detour" →
      (step_due_after_grade pool due ec il now).2 = some
        { id := 0, tg_user_id := due.tg_user_id, kind := "revisit", unit_key := due.unit_key,
          due_at := now + 2 * 86400, exercise_index := 1, item_in_exercise := 1,
          correct_in_exercise := 0, batch_num := 1, is_active := true,
          cause_rule_keys_json := due.cause_rule_keys_json }) ∧
    (due.kind = "revisit" →
      (step_due_after_grade pool due ec il now).2 = some
        { id := 0, tg_user_id := due.tg_user_id, kind := "check", unit_key := due.unit_key,
          due_at := now + 7 * 86400, exercise_index := 1, item_in_exercise := 1,
          correct_in_exercise := 0, batch_num := 1, is_active := true,
          cause_rule_keys_json := due.cause_rule_keys_json }) ∧
    (∀ d : DueItem, d.kind = "check" → _create_follow_due d now = none) := by
  have hfields := advance_state_fields due ec il
  have hpair : _advance_due_detour_revisit pool due ec il = (_advance_state due ec il, true) := by
    have h1 := advance_fst pool due ec il
    have h2 := hdone
    cases he : _advance_due_detour_revisit pool due ec il with
    | mk a b =>
      rw [he] at h1 h2
      simp only [] at h1 h2
      rw [h1, h2]
  have hstep : step_due_after_grade pool due ec il now
      = ({ (_advance_state due ec il) with is_active := false },
        _create_follow_due { (_advance_state due ec il) with is_active := false } now) := by
    unfold step_due_after_grade
    rw [hpair]
    rfl
  have hk1 : ({ (_advance_state due ec il) with is_active := false } : DueItem).kind
      = due.kind := hfields.1
  refine ⟨advance_snd_iff pool due ec il, ?_, ?_, ?_, ?_⟩
  · rw [hstep]
  · intro hk
    rw [hstep]
    unfold _create_follow_due
    rw [if_pos (by rw [hk1]; exact hk)]
    rw [show ({ (_advance_state due ec il) with is_active := false } : DueItem).tg_user_id
        = (_advance_state due ec il).tg_user_id from rfl, hfields.2.1]
    rw [show ({ (_advance_state due ec il) with is_active := false } : DueItem).unit_key
        = (_advance_state due ec il).unit_key from rfl, hfields.2.2.1]
    rw [show ({ (_advance_state due ec il) with is_active := false }
          : DueItem).cause_rule_keys_json
        = (_advance_state due ec il).cause_rule_keys_json from rfl, hfields.2.2.2]
  · intro hk
    rw [hstep]
    unfold _create_follow_due
    rw [if_neg (by rw [hk1, hk]; decide)]
    rw [if_pos (by rw [hk1]; exact hk)]
    rw [show ({ (_advance_state due ec il) with is_active := false } : DueItem).tg_user_id
        = (_advance_state due ec il).tg_user_id from rfl, hfields.2.1]
    rw [show ({ (_advance_state due ec il) with is_active := false } : DueItem).unit_key
        = (_advance_state due ec il).unit_key from rfl, hfields.2.2.1]
    rw [show ({ (_advance_state due ec il) with is_active := false }
          : DueItem).cause_rule_keys_json
        = (_advance_state due ec il).cause_rule_keys_json from rfl, hfields.2.2.2]
  · intro d hk
    unfold _create_follow_due
    rw [if_neg (by rw [hk]; decide), if_neg (by rw [hk]; decide)]

/-- Claim C3 witness: a `detour` with an empty candidate pool completes
immediately; the theorem instantiated there shows the `revisit` successor
two days out. -/
theorem c3_witness :
    (step_due_after_grade [] ⟨3, 8, "detour", "u9", 0, 4, 1, 0, 1, true,
        some ["u9_r1"]⟩ true (some 1) 1000).2 = some
      { id := 0, tg_user_id := 8, kind := "revisit", unit_key := "u9",
        due_at := 1000 + 2 * 86400, exercise_index := 1, item_in_exercise := 1,
        correct_in_exercise := 0, batch_num := 1, is_active := true,
        cause_rule_keys_json := some ["u9_r1"] } :=
  (c3_completion_spawn [] ⟨3, 8, "detour", "u9", 0, 4, 1, 0, 1, true, some ["u9_r1"]⟩
    true (some 1) 1000 (Or.inl rfl) (by decide)).2.2.1 rfl

end GrammarBot


namespace GrammarBot

/-! ## Claim C4: helper lemmas about the remediation-trigger table scan -/

theorem findFirstIdx_none_iff (p : DueItem → Bool) (l : List DueItem) :
    findFirstIdx p l = none ↔ ∀ r ∈ l, p r = false := by
  induction l with
  | nil => simp [findFirstIdx]
  | cons r rest ih =>
    by_cases h : p r = true
    · simp [findFirstIdx, h]
    · simp only [findFirstIdx, if_neg h, Option.map_eq_none']
      simp only [Bool.not_eq_true] at h
      simp [ih, h]

theorem findFirstIdx_some_pred (p : DueItem → Bool) (l : List DueItem) (x : Nat × DueItem)
    (h : findFirstIdx p l = some x) : p x.2 = true := by
  induction l generalizing x with
  | nil => simp [findFirstIdx] at h
  | cons r rest ih =>
    by_cases hr : p r = true
    · rw [findFirstIdx, if_pos hr] at h
      cases h
      exact hr
    · rw [findFirstIdx, if_neg hr] at h
      cases hx : findFirstIdx p rest with
      | none => rw [hx] at h; simp at h
      | some y =>
        rw [hx] at h
        simp only [Option.map_some'] at h
        cases h
        exact ih y hx

theorem findFirstIdx_append_right (p : DueItem → Bool) (l : List DueItem) (r : DueItem)
    (hl : findFirstIdx p l = none) (hr : p r = true) :
    findFirstIdx p (l ++ [r]) = some (l.length, r) := by
  induction l with
  | nil => simp [findFirstIdx, hr]
  | cons a rest ih =>
    by_cases ha : p a = true
    · rw [findFirstIdx, if_pos ha] at hl
      simp at hl
    · rw [findFirstIdx, if_neg ha] at hl
      rw [List.cons_append, findFirstIdx, if_neg ha]
      rw [ih (Option.map_eq_none'.1 hl)]
      simp

theorem findFirstIdx_set (p : DueItem → Bool) (l : List DueItem) (i : Nat) (r r' : DueItem)
    (h : findFirstIdx p l = some (i, r)) (hr' : p r' = true) :
    findFirstIdx p (l.set i r') = some (i, r') := by
  induction l generalizing i with
  | nil => simp [findFirstIdx] at h
  | cons a rest ih =>
    by_cases ha : p a = true
    · rw [findFirstIdx, if_pos ha] at h
      cases h
      simp [List.set, findFirstIdx, hr']
    · rw [findFirstIdx, if_neg ha] at h
      cases hx : findFirstIdx p rest with
      | none => rw [hx] at h; simp at h
      | some y =>
        rw [hx] at h
        simp only [Option.map_some'] at h
        cases h
        rw [List.set_cons_succ, findFirstIdx, if_neg ha, ih y.1 hx]
        simp

theorem findFirstIdx_none_countP (p : DueItem → Bool) (l : List DueItem)
    (h : findFirstIdx p l = none) : l.countP p = 0 := by
  rw [List.countP_eq_zero]
  intro a ha
  simp [(findFirstIdx_none_iff p l).1 h a ha]

theorem countP_set_of_found (p : DueItem → Bool) (l : List DueItem) (i : Nat) (r r' : DueItem)
    (h : findFirstIdx p l = some (i, r)) (hr' : p r' = true) (hle : l.countP p ≤ 1) :
    (l.set i r').countP p = 1 := by
  induction l generalizing i with
  | nil => simp [findFirstIdx] at h
  | cons a rest ih =>
    by_cases ha : p a = true
    · rw [findFirstIdx, if_pos ha] at h
      cases h
      rw [List.countP_cons_of_pos p rest ha] at hle
      rw [List.set_cons_zero, List.countP_cons_of_pos p rest hr']
      omega
    · rw [findFirstIdx, if_neg ha] at h
      cases hx : findFirstIdx p rest with
      | none => rw [hx] at h; simp at h
      | some y =>
        rw [hx] at h
        simp only [Option.map_some'] at h
        cases h
        rw [List.countP_cons_of_neg p rest ha] at hle
        rw [List.set_cons_succ, List.countP_cons_of_neg p _ ha]
        exact ih y.1 hx hle

theorem mem_dedupKeys (k : String) (l : List String) : ∀ seen : List String,
    (k ∈ dedupKeys l seen ↔ k ∈ l ∧ k ≠ "" ∧ k ∉ seen) := by
  induction l with
  | nil => intro seen; simp [dedupKeys]
  | cons a rest ih =>
    intro seen
    by_cases ha : a ≠ "" ∧ a ∉ seen
    · rw [dedupKeys, if_pos ha]
      by_cases hk : k = a
      · simp [hk, ha.1, ha.2]
      · simp [List.mem_cons, ih (a :: seen), hk]
    · rw [dedupKeys, if_neg ha]
      rw [ih seen]
      simp only [List.mem_cons]
      constructor
      · rintro ⟨h1, h2, h3⟩
        exact ⟨Or.inr h1, h2, h3⟩
      · rintro ⟨h1 | h1, h2, h3⟩
        · rw [h1] at h2 h3
          exact absurd ⟨h2, h3⟩ ha
        · exact ⟨h1, h2, h3⟩

theorem dedupKeys_nodup (l : List String) : ∀ seen : List String, (dedupKeys l seen).Nodup := by
  induction l with
  | nil => intro seen; simp [dedupKeys]
  | cons a rest ih =>
    intro seen
    by_cases ha : a ≠ "" ∧ a ∉ seen
    · rw [dedupKeys, if_pos ha, List.nodup_cons]
      refine ⟨fun hmem => ?_, ih (a :: seen)⟩
      exact ((mem_dedupKeys a rest (a :: seen)).1 hmem).2.2 (List.mem_cons_self a seen)
    · rw [dedupKeys, if_neg ha]
      exact ih seen

theorem merge_rule_keys_spec (ex : Option (List String)) (new_keys : List String) :
    (_parse_rule_keys (_merge_rule_keys ex new_keys)).Nodup ∧
    ∀ k, k ∈ _parse_rule_keys (_merge_rule_keys ex new_keys) ↔
      (k ∈ _parse_rule_keys ex ∨ k ∈ new_keys) ∧ k ≠ "" := by
  rw [_merge_rule_keys]
  by_cases hb : _parse_rule_keys ex = [] ∧ new_keys = []
  · rw [if_pos hb]
    refine ⟨List.nodup_nil, fun k => ?_⟩
    rw [hb.1, hb.2]
    simp [_parse_rule_keys]
  · rw [if_neg hb]
    have hmem : ∀ k, k ∈ dedupKeys (_parse_rule_keys ex ++ new_keys) [] ↔
        (k ∈ _parse_rule_keys ex ∨ k ∈ new_keys) ∧ k ≠ "" := by
      intro k
      rw [mem_dedupKeys]
      simp [List.mem_append, and_assoc]
    rw [_rule_keys_json]
    by_cases hd : dedupKeys (_parse_rule_keys ex ++ new_keys) [] = []
    · rw [if_pos hd]
      refine ⟨List.nodup_nil, fun k => ?_⟩
      rw [show _parse_rule_keys none = [] from rfl]
      simp only [List.not_mem_nil, false_iff]
      intro hcon
      have := (hmem k).2 hcon
      rw [hd] at this
      exact List.not_mem_nil k this
    · rw [if_neg hd]
      have hfix : _parse_rule_keys (some (dedupKeys (_parse_rule_keys ex ++ new_keys) []))
          = dedupKeys (_parse_rule_keys ex ++ new_keys) [] := by
        rw [_parse_rule_keys]
        refine List.filter_eq_self.2 (fun a hmem2 => ?_)
        have := (mem_dedupKeys a (_parse_rule_keys ex ++ new_keys) []).1 hmem2
        exact decide_eq_true this.2.1
      rw [hfix]
      exact ⟨dedupKeys_nodup _ [], hmem⟩

theorem ensureMatchB_newDetour (tg : Nat) (u : String) (now : Int) (j : Option (List String)) :
    ensureMatchB tg u (newDetourRow tg u now j) = true := by
  simp [ensureMatchB, newDetourRow]

theorem ensureMatchB_merge (tg : Nat) (u : String) (r : DueItem) (now : Int)
    (ks : List String) :
    ensureMatchB tg u (mergeDetourRow r now ks) = ensureMatchB tg u r := rfl

theorem mergeDetourRow_kind (r : DueItem) (now : Int) (ks : List String) :
    (mergeDetourRow r now ks).kind = r.kind := rfl

theorem ensureMatchB_escalate (tg : Nat) (u : String) (r : DueItem) (now : Int)
    (ks : List String) (h : ensureMatchB tg u r = true) :
    ensureMatchB tg u (escalateRow r now ks) = true := by
  simp only [ensureMatchB, Bool.and_eq_true, Bool.or_eq_true, decide_eq_true_eq] at h
  obtain ⟨⟨⟨htg, hact⟩, hkind⟩, hunit⟩ := h
  simp [ensureMatchB, escalateRow, htg, hunit]

theorem ensure_detours_single (tg : Nat) (u : String) (cause : Option (List String))
    (now : Int) (hu : u ≠ "") (t0 : List DueItem) :
    ensure_detours_for_units t0 tg [u] cause now =
      (match findFirstIdx (ensureMatchB tg u) t0 with
       | none =>
         (t0 ++ [newDetourRow tg u now
            (_rule_keys_json (unitCauseKeys (_parse_rule_keys cause) u))],
          [newDetourRow tg u now
            (_rule_keys_json (unitCauseKeys (_parse_rule_keys cause) u))])
       | some x =>
         if x.2.kind = "detour"
         then (t0.set x.1 (mergeDetourRow x.2 now (unitCauseKeys (_parse_rule_keys cause) u)),
               ([] : List DueItem))
         else (t0.set x.1 (escalateRow x.2 now (unitCauseKeys (_parse_rule_keys cause) u)),
               ([] : List DueItem))) := by
  have h1 : (([u] : List String).filter (fun v => v ≠ "")) = [u] := by
    simp [hu]
  have h2 : dedupStrings [u] [] = [u] := by simp [dedupStrings]
  have h3 : sortStrings [u] = [u] := by simp [sortStrings, insertSorted]
  rw [ensure_detours_for_units, if_neg (by simp : ¬([u] : List String) = [])]
  rw [h1, h2, h3]
  rw [List.foldl_cons, List.foldl_nil]
  cases hf : findFirstIdx (ensureMatchB tg u) t0 with
  | none => simp
  | some x =>
    by_cases hk : x.2.kind = "detour" <;> simp [hk]

theorem ensure_single_none (tg : Nat) (u : String) (cause : Option (List String))
    (now : Int) (hu : u ≠ "") (t0 : List DueItem)
    (hf : findFirstIdx (ensureMatchB tg u) t0 = none) :
    ensure_detours_for_units t0 tg [u] cause now =
      (t0 ++ [newDetourRow tg u now
          (_rule_keys_json (unitCauseKeys (_parse_rule_keys cause) u))],
       [newDetourRow tg u now
          (_rule_keys_json (unitCauseKeys (_parse_rule_keys cause) u))]) := by
  rw [ensure_detours_single tg u cause now hu t0, hf]

theorem ensure_single_merge (tg : Nat) (u : String) (cause : Option (List String))
    (now : Int) (hu : u ≠ "") (t0 : List DueItem) (i : Nat) (r : DueItem)
    (hf : findFirstIdx (ensureMatchB tg u) t0 = some (i, r)) (hk : r.kind = "detour") :
    ensure_detours_for_units t0 tg [u] cause now =
      (t0.set i (mergeDetourRow r now (unitCauseKeys (_parse_rule_keys cause) u)), []) := by
  rw [ensure_detours_single tg u cause now hu t0, hf]
  simp [hk]

theorem ensure_single_escalate (tg : Nat) (u : String) (cause : Option (List String))
    (now : Int) (hu : u ≠ "") (t0 : List DueItem) (i : Nat) (r : DueItem)
    (hf : findFirstIdx (ensureMatchB tg u) t0 = some (i, r)) (hk : ¬(r.kind = "detour")) :
    ensure_detours_for_units t0 tg [u] cause now =
      (t0.set i (escalateRow r now (unitCauseKeys (_parse_rule_keys cause) u)), []) := by
  rw [ensure_detours_single tg u cause now hu t0, hf]
  simp [hk]

/-- Claim C4: `ensure_detours_for_units` preserves the at-most-one-active
remediation row invariant per (learner, unit).  For a single nonempty unit
key: with no matching active row it appends one fresh `detour` row due
now; with an active `detour` it creates nothing and updates that row in
place (pulling `due_at` back to now when later, merging cause keys); with
an active `revisit`/`check` it converts that same row in place to a
`detour` with counters reset to (1, 1, 0), `due_at` now and merged cause
keys.  Merged cause keys are a deduplicated union of the existing and the
incoming nonempty keys; a second call on the resulting table creates
nothing and leaves the row count unchanged; and the resulting table holds
exactly one matching active row whenever the input held at most one. -/
theorem c4_ensure_detours (table : List DueItem) (tg : Nat) (u : String)
    (cause : Option (List String)) (now : Int) (hu : u ≠ "")
    (hinv : table.countP (ensureMatchB tg u) ≤ 1) :
    (findFirstIdx (ensureMatchB tg u) table = none →
      ensure_detours_for_units table tg [u] cause now =
        (table ++ [newDetourRow tg u now
            (_rule_keys_json (unitCauseKeys (_parse_rule_keys cause) u))],
         [newDetourRow tg u now
            (_rule_keys_json (unitCauseKeys (_parse_rule_keys cause) u))]) ∧
      (newDetourRow tg u now
          (_rule_keys_json (unitCauseKeys (_parse_rule_keys cause) u))).kind = "detour" ∧
      (newDetourRow tg u now
          (_rule_keys_json (unitCauseKeys (_parse_rule_keys cause) u))).due_at = now ∧
      (newDetourRow tg u now
          (_rule_keys_json (unitCauseKeys (_parse_rule_keys cause) u))).is_active = true) ∧
    (∀ i r, findFirstIdx (ensureMatchB tg u) table = some (i, r) → r.kind = "detour" →
      ensure_detours_for_units table tg [u] cause now =
        (table.set i (mergeDetourRow r now (unitCauseKeys (_parse_rule_keys cause) u)), []) ∧
      (mergeDetourRow r now (unitCauseKeys (_parse_rule_keys cause) u)).kind = r.kind ∧
      (mergeDetourRow r now (unitCauseKeys (_parse_rule_keys cause) u)).due_at =
        (if now < r.due_at then now else r.due_at) ∧
      (mergeDetourRow r now (unitCauseKeys (_parse_rule_keys cause) u)).cause_rule_keys_json =
        _merge_rule_keys r.cause_rule_keys_json (unitCauseKeys (_parse_rule_keys cause) u) ∧
      (mergeDetourRow r now (unitCauseKeys (_parse_rule_keys cause) u)).exercise_index =
        r.exercise_index) ∧
    (∀ i r, findFirstIdx (ensureMatchB tg u) table = some (i, r) → ¬(r.kind = "detour") →
      ensure_detours_for_units table tg [u] cause now =
        (table.set i (escalateRow r now (unitCauseKeys (_parse_rule_keys cause) u)), []) ∧
      (escalateRow r now (unitCauseKeys (_parse_rule_keys cause) u)).kind = "detour" ∧
      (escalateRow r now (unitCauseKeys (_parse_rule_keys cause) u)).due_at = now ∧
      (escalateRow r now (unitCauseKeys (_parse_rule_keys cause) u)).exercise_index = 1 ∧
      (escalateRow r now (unitCauseKeys (_parse_rule_keys cause) u)).item_in_exercise = 1 ∧
      (escalateRow r now (unitCauseKeys (_parse_rule_keys cause) u)).correct_in_exercise = 0 ∧
      (escalateRow r now (unitCauseKeys (_parse_rule_keys cause) u)).is_active = true ∧
      (escalateRow r now (unitCauseKeys (_parse_rule_keys cause) u)).unit_key = r.unit_key ∧
      (escalateRow r now (unitCauseKeys (_parse_rule_keys cause) u)).tg_user_id = r.tg_user_id ∧
      (escalateRow r now (unitCauseKeys (_parse_rule_keys cause) u)).cause_rule_keys_json =
        _merge_rule_keys r.cause_rule_keys_json (unitCauseKeys (_parse_rule_keys cause) u)) ∧
    (∀ ex new_keys, (_parse_rule_keys (_merge_rule_keys ex new_keys)).Nodup ∧
      ∀ k, k ∈ _parse_rule_keys (_merge_rule_keys ex new_keys) ↔
        (k ∈ _parse_rule_keys ex ∨ k ∈ new_keys) ∧ k ≠ "") ∧
    ((ensure_detours_for_units
        (ensure_detours_for_units table tg [u] cause now).1 tg [u] cause now).2 = [] ∧
     (ensure_detours_for_units
        (ensure_detours_for_units table tg [u] cause now).1 tg [u] cause now).1.length =
       (ensure_detours_for_units table tg [u] cause now).1.length) ∧
    (ensure_detours_for_units table tg [u] cause now).1.countP (ensureMatchB tg u) = 1 := by
  refine ⟨?_, ?_, ?_, ?_, ?_, ?_⟩
  · intro hf
    exact ⟨ensure_single_none tg u cause now hu table hf, rfl, rfl, rfl⟩
  · intro i r hf hk
    exact ⟨ensure_single_merge tg u cause now hu table i r hf hk, rfl, rfl, rfl, rfl⟩
  · intro i r hf hk
    exact ⟨ensure_single_escalate tg u cause now hu table i r hf hk,
      rfl, rfl, rfl, rfl, rfl, rfl, rfl, rfl, rfl⟩
  · exact merge_rule_keys_spec
  · cases hfind : findFirstIdx (ensureMatchB tg u) table with
    | none =>
      have hD := ensureMatchB_newDetour tg u now
        (_rule_keys_json (unitCauseKeys (_parse_rule_keys cause) u))
      have h1 := ensure_single_none tg u cause now hu table hfind
      have hf2 := findFirstIdx_append_right (ensureMatchB tg u) table _ hfind hD
      have h2 := ensure_single_merge tg u cause now hu
        (table ++ [newDetourRow tg u now
          (_rule_keys_json (unitCauseKeys (_parse_rule_keys cause) u))])
        table.length _ hf2 rfl
      rw [h1]
      simp only []
      rw [h2]
      exact ⟨rfl, by simp⟩
    | some x =>
      have hp := findFirstIdx_some_pred (ensureMatchB tg u) table x hfind
      by_cases hk : x.2.kind = "detour"
      · have h1 := ensure_single_merge tg u cause now hu table x.1 x.2 hfind hk
        have hp' : ensureMatchB tg u
            (mergeDetourRow x.2 now (unitCauseKeys (_parse_rule_keys cause) u)) = true := by
          rw [ensureMatchB_merge]
          exact hp
        have hf2 := findFirstIdx_set (ensureMatchB tg u) table x.1 x.2 _ hfind hp'
        have h2 := ensure_single_merge tg u cause now hu
          (table.set x.1 (mergeDetourRow x.2 now (unitCauseKeys (_parse_rule_keys cause) u)))
          x.1 _ hf2 (by rw [mergeDetourRow_kind]; exact hk)
        rw [h1]
        simp only []
        rw [h2]
        exact ⟨rfl, by simp⟩
      · have h1 := ensure_single_escalate tg u cause now hu table x.1 x.2 hfind hk
        have hp' := ensureMatchB_escalate tg u x.2 now
          (unitCauseKeys (_parse_rule_keys cause) u) hp
        have hf2 := findFirstIdx_set (ensureMatchB tg u) table x.1 x.2 _ hfind hp'
        have h2 := ensure_single_merge tg u cause now hu
          (table.set x.1 (escalateRow x.2 now (unitCauseKeys (_parse_rule_keys cause) u)))
          x.1 _ hf2 rfl
        rw [h1]
        simp only []
        rw [h2]
        exact ⟨rfl, by simp⟩
  · cases hfind : findFirstIdx (ensureMatchB tg u) table with
    | none =>
      rw [ensure_single_none tg u cause now hu table hfind]
      simp only []
      rw [List.countP_append, findFirstIdx_none_countP _ _ hfind]
      simp [ensureMatchB_newDetour]
    | some x =>
      have hp := findFirstIdx_some_pred (ensureMatchB tg u) table x hfind
      by_cases hk : x.2.kind = "detour"
      · rw [ensure_single_merge tg u cause now hu table x.1 x.2 hfind hk]
        simp only []
        refine countP_set_of_found _ table x.1 x.2 _ hfind ?_ hinv
        rw [ensureMatchB_merge]
        exact hp
      · rw [ensure_single_escalate tg u cause now hu table x.1 x.2 hfind hk]
        simp only []
        exact countP_set_of_found _ table x.1 x.2 _ hfind
          (ensureMatchB_escalate tg u x.2 now _ hp) hinv

/-- Claim C4 witness: the theorem applied to an empty table creates the
one `detour` row for unit `u1`: the resulting table has exactly one
active remediation row for learner 7 and unit `u1`. -/
theorem c4_witness :
    ("u1" : String) ≠ "" ∧
    (ensure_detours_for_units [] 7 ["u1"] (some ["u1_a", "", "x", "u1_a"]) 100).1.countP
        (ensureMatchB 7 "u1") = 1 :=
  ⟨by decide, (c4_ensure_detours [] 7 "u1" (some ["u1_a", "", "x", "u1_a"]) 100 (by decide)
      (by decide)).2.2.2.2.2⟩

end GrammarBot
